import Mathlib

/-!
Verification development for the buffered iRODS stdio-emulation layer
(`isio.c` / `isio.h`): a single-buffer write-back/read-ahead cache in
front of a remote object store.

The C code is shallowly embedded as follows.

* `ISIO_FILE` mirrors the C struct of the same name.  The pointer pair
  `base`/`ptr` is represented by the buffer content `buf : List Nat`
  (one `Nat` per byte, the length being the actual allocated size) and
  the offset `cursor = ptr - base : Int`.  The `bufferSize` field is kept
  separate from `buf.length because the source updates them
  independently (and, in one path, fails to keep them in sync).
* The four remote primitives (`rcDataObjRead`, `rcDataObjWrite`,
  `rcDataObjLseek`, `rcDataObjClose`) and the `realloc` allocation
  primitive are an explicit collaborator `RemoteIface ρ`, passed to each
  operation together with the collaborator state `ρ`; `RemoteObj` with
  `idealIface` is the faithful byte-store instance, and a few
  fault-injecting instances model remote errors / allocation failure.
* C `int`/`size_t` values are `Int`/`Nat`; the implicit conversion of a
  (possibly negative) `int` to `size_t` is written explicitly as
  `% 2 ^ 64` at the two places where the source relies on it (the
  `countToWrite <= spaceInBuffer` comparison and the division by
  `itemsize` in `irodsfread`/`irodsfwrite`).
-/

/-- `#define ISIO_INITIAL_BUF_SIZE 65536` (isio.c). -/
def ISIO_INITIAL_BUF_SIZE : Nat := 65536

/-- `#define ISIO_MAX_BUF_SIZE 2097152` (isio.c). -/
def ISIO_MAX_BUF_SIZE : Nat := 2097152

/-- `#define ISIO_MAX_OPEN_FILES 20` (isio.c). -/
def ISIO_MAX_OPEN_FILES : Nat := 20

/-- `EOF` sentinel returned by `isioFileGetc`. -/
def EOF : Int := -1

/-- The `whence` argument of seek (`SEEK_SET` / `SEEK_CUR` / `SEEK_END`). -/
inductive Whence where
  | seekSet
  | seekCur
  | seekEnd
deriving DecidableEq, Repr

/-- The `ISIO_FILE` struct of isio.h.  `buf` is the content of the
allocated region `base` (length = actual allocation), `cursor` is
`ptr - base`.  All other fields are as in the C struct. -/
structure ISIO_FILE where
  base_offset : Int
  buf : List Nat
  bufferSize : Int
  cursor : Int
  count : Int
  dirty : Bool
  l1descInx : Int
deriving DecidableEq, Repr

/-- `memcpy(bs + pos, xs, xs.length)`: overwrite `xs.length` bytes of
`bs` starting at byte offset `pos`. -/
def writeAt (bs : List Nat) (pos : Nat) (xs : List Nat) : List Nat :=
  bs.take pos ++ xs ++ bs.drop (pos + xs.length)

/-- `realloc(bs, n)`: the first `min n bs.length` bytes are preserved,
fresh bytes are unspecified (modelled as 0). -/
def reallocBuf (bs : List Nat) (n : Nat) : List Nat :=
  (bs ++ List.replicate n 0).take n

/-- An all-zero byte string of length `n`, used for concrete test
inputs and buffers. -/
def zeros (n : Nat) : List Nat := List.replicate n 0

/-- The collaborator interface: the four remote primitives used by the
cache core, plus the allocation primitive (`realloc` success or
failure).  Each call threads the collaborator state `ρ`. -/
structure RemoteIface (ρ : Type) where
  readObj : ρ → Int → Int × List Nat × ρ
  writeObj : ρ → List Nat → Int × ρ
  lseekObj : ρ → Int → Whence → Int × Int × ρ
  closeObj : ρ → Int × ρ
  allocOk : ρ → Int → Bool × ρ

/-- `new_isio_file` (isio.c): the state of a freshly opened handle. -/
def freshFile : ISIO_FILE :=
  { base_offset := 0
    buf := List.replicate ISIO_INITIAL_BUF_SIZE 0
    bufferSize := (ISIO_INITIAL_BUF_SIZE : Int)
    cursor := 0
    count := 0
    dirty := false
    l1descInx := 0 }

/-- `isioFlush` (isio.c:843): if dirty, transmit the occupied extent
`(ptr - base) + count` bytes from the start of the buffer in one
`rcDataObjWrite`, clearing `dirty` on any non-negative status; a
non-dirty flush is a no-op returning 0. -/
def isioFlush (I : RemoteIface ρ) (f : ISIO_FILE) (r : ρ) : Int × ISIO_FILE × ρ :=
  if f.dirty then
    let payload := f.buf.take (f.cursor + f.count).toNat
    let wr := I.writeObj r payload
    (wr.1, if 0 ≤ wr.1 then { f with dirty := false } else f, wr.2)
  else
    (0, f, r)

/-- `isioFileTell` (isio.c:659): one remote `rcDataObjLseek(SEEK_CUR, 0)`
position query; returns `seekResult->offset`. -/
def isioFileTell (I : RemoteIface ρ) (r : ρ) : Int × ρ :=
  let sk := I.lseekObj r 0 Whence.seekCur
  (sk.2.1, sk.2.2)

/-- `isioFillBuffer` (isio.c:287): record `base_offset` from a remote
position query, then issue one `rcDataObjRead` sized `bufferSize`;
on success the buffer holds the returned bytes, `ptr = base` and
`count = status`. -/
def isioFillBuffer (I : RemoteIface ρ) (f : ISIO_FILE) (r : ρ) : Int × ISIO_FILE × ρ :=
  if f.bufferSize ≤ 0 then
    (-2, f, r)
  else
    let tl := isioFileTell I r
    let f1 := { f with base_offset := tl.1 }
    let rd := I.readObj tl.2 f1.bufferSize
    if rd.1 < 0 then
      (rd.1, f1, rd.2.2)
    else
      (0, { f1 with buf := rd.2.1 ++ f1.buf.drop rd.2.1.length
                    cursor := 0
                    count := rd.1 }, rd.2.2)

/-- Common tail of the two cached-refill branches of `isioFileRead`
(isio.c:438-466, `usingUsersBuffer == 0`): refill, then copy
`min(count, reqSize)` fresh bytes to the destination. -/
def readDeliver (I : RemoteIface ρ) (f3 : ISIO_FILE) (r : ρ)
    (part1 : List Nat) (rc1 reqSize : Int) : Int × List Nat × ISIO_FILE × ρ :=
  let fill := isioFillBuffer I f3 r
  if fill.1 < 0 then
    (fill.1, part1, fill.2.1, fill.2.2)
  else
    let f4 := fill.2.1
    let second : Int := min f4.count reqSize
    (rc1 + second,
     part1 ++ (f4.buf.drop f4.cursor.toNat).take second.toNat,
     { f4 with cursor := f4.cursor + second, count := f4.count - second },
     fill.2.2)

/-- The bypass branch of `isioFileRead` (isio.c:417-429 and 444-454):
point the cache at the user's buffer (`bufferSize = reqSize`), refill,
and restore the saved buffer afterwards — except on a refill error,
where the source returns at once without restoring. -/
def readBypass (I : RemoteIface ρ) (f2 : ISIO_FILE) (r1 : ρ)
    (part1 : List Nat) (rc1 reqSize : Int) : Int × List Nat × ISIO_FILE × ρ :=
  let f3 : ISIO_FILE :=
    { f2 with buf := List.replicate reqSize.toNat 0
              bufferSize := reqSize
              cursor := 0 }
  let fill := isioFillBuffer I f3 r1
  if fill.1 < 0 then (fill.1, part1, fill.2.1, fill.2.2) else
  let f4 := fill.2.1
  let second : Int := min f4.count reqSize
  (rc1 + second,
   part1 ++ f4.buf.take second.toNat,
   { f4 with buf := f2.buf
             bufferSize := f2.bufferSize
             cursor := 0
             count := 0 },
   fill.2.2)

/-- The refill part of `isioFileRead` (isio.c:397-466): choose between
reusing, growing, and bypassing the cache buffer, then deliver. -/
def readRefill (I : RemoteIface ρ) (f2 : ISIO_FILE) (r1 : ρ)
    (part1 : List Nat) (rc1 reqSize : Int) : Int × List Nat × ISIO_FILE × ρ :=
  let newBufSize : Int := 2 * reqSize + 8
  if f2.bufferSize < newBufSize then
    if newBufSize ≤ (ISIO_MAX_BUF_SIZE : Int) then
      -- grow the cache buffer (isio.c:404-416)
      let ar := I.allocOk r1 newBufSize
      if ar.1 = false then (-99, part1, { f2 with buf := [] }, ar.2) else
      readDeliver I
        { f2 with buf := reallocBuf f2.buf newBufSize.toNat
                  bufferSize := newBufSize
                  cursor := 0
                  count := 0 } ar.2 part1 rc1 reqSize
    else
      readBypass I f2 r1 part1 rc1 reqSize
  else
    readDeliver I { f2 with cursor := 0, count := 0 } r1 part1 rc1 reqSize

/-- The part of `isioFileRead` after the initial flush (isio.c:370-466):
serve from the cache if possible, otherwise copy what is cached and
refill. -/
def readBody (I : RemoteIface ρ) (f1 : ISIO_FILE) (r1 : ρ) (maxToRead : Nat) :
    Int × List Nat × ISIO_FILE × ρ :=
  let reqSize0 : Int := (maxToRead : Int)
  if 0 < f1.count ∧ reqSize0 ≤ f1.count then
    (reqSize0, (f1.buf.drop f1.cursor.toNat).take maxToRead,
     { f1 with cursor := f1.cursor + reqSize0, count := f1.count - reqSize0 }, r1)
  else
    let part1 : List Nat :=
      if 0 < f1.count then (f1.buf.drop f1.cursor.toNat).take f1.count.toNat else []
    let rc1 : Int := if 0 < f1.count then f1.count else 0
    let f2 := if 0 < f1.count then { f1 with cursor := 0, count := 0 } else f1
    readRefill I f2 r1 part1 rc1 (reqSize0 - rc1)

/-- `isioFileRead` (isio.c:347).  Returns `(status, delivered, f, r)`
where `delivered` is the byte list written to the caller's buffer. -/
def isioFileRead (I : RemoteIface ρ) (f : ISIO_FILE) (r : ρ) (maxToRead : Nat) :
    Int × List Nat × ISIO_FILE × ρ :=
  if maxToRead = 0 then (0, [], f, r) else
  let fl := isioFlush I f r
  if fl.1 < 0 then (fl.1, [], fl.2.1, fl.2.2) else
  readBody I fl.2.1 fl.2.2 maxToRead

/-- Final `memcpy` of the remaining user data into the (possibly just
reallocated) cache buffer (isio.c:595-604). -/
def writeTail (f : ISIO_FILE) (src : List Nat) (wrtSize : Int) (r : ρ) :
    Int × ISIO_FILE × ρ :=
  let wrtSize2 : Int := (src.length : Int) - wrtSize
  let rest := src.drop wrtSize.toNat
  ((src.length : Int),
   { f with buf := writeAt f.buf f.cursor.toNat rest
            dirty := true
            cursor := f.cursor + wrtSize2
            count := max (f.count - wrtSize2) 0 },
   r)

/-- The overflow tail of `isioFileWrite` (isio.c:557-604), entered with
the buffer flushed and marked empty: bypass the cache if the remainder
exceeds the cap, else cache the remainder, growing the buffer first if
needed — note the source does not update the `bufferSize` field in the
grow branch (isio.c:585-593), and returns 0 (not a negative error) when
the reallocation fails (isio.c:590). -/
def writeOverflow (I : RemoteIface ρ) (f2 : ISIO_FILE) (r1 : ρ)
    (src : List Nat) (wrtSize : Int) : Int × ISIO_FILE × ρ :=
  let wrtSize2 : Int := (src.length : Int) - wrtSize
  if (ISIO_MAX_BUF_SIZE : Int) < wrtSize2 then
    -- too big to cache, bypass (isio.c:558-580)
    let wr := I.writeObj r1 (src.drop wrtSize.toNat)
    if wr.1 < 0 then (wr.1, f2, wr.2) else
    (wr.1, { f2 with base_offset := f2.base_offset + f2.bufferSize + wrtSize2 }, wr.2)
  else
    if f2.bufferSize < wrtSize2 then
      let newBufSize : Int := 2 * wrtSize2 + 8
      let ar := I.allocOk r1 newBufSize
      if ar.1 = false then (0, { f2 with buf := [] }, ar.2) else
      writeTail { f2 with buf := reallocBuf f2.buf newBufSize.toNat, cursor := 0 }
        src wrtSize ar.2
    else
      writeTail f2 src wrtSize r1

/-- `isioFileWrite` (isio.c:506).  The `countToWrite <= spaceInBuffer`
comparison converts the `int` to `size_t`, written `% 2 ^ 64`. -/
def isioFileWrite (I : RemoteIface ρ) (f : ISIO_FILE) (r : ρ) (src : List Nat) :
    Int × ISIO_FILE × ρ :=
  let countToWrite := src.length
  if countToWrite = 0 then (0, f, r) else
  let f0 := { f with dirty := true }
  let spaceInBuffer : Int := f0.bufferSize - f0.cursor
  let wrtSize : Int :=
    if (countToWrite : Int) ≤ spaceInBuffer % 2 ^ 64 then (countToWrite : Int)
    else spaceInBuffer
  let f1 := { f0 with buf := writeAt f0.buf f0.cursor.toNat (src.take wrtSize.toNat)
                      cursor := f0.cursor + wrtSize
                      count := max (f0.count - wrtSize) 0 }
  if wrtSize = (countToWrite : Int) then ((countToWrite : Int), f1, r) else
  let fl := isioFlush I f1 r
  if fl.1 < 0 then (fl.1, fl.2.1, fl.2.2) else
  writeOverflow I { fl.2.1 with cursor := 0, count := 0 } fl.2.2 src wrtSize

/-- `offset_in_current_buffer` (isio.c:750): `some adj` when the target
position is inside the buffered window, `none` otherwise. -/
def offset_in_current_buffer (f : ISIO_FILE) (offset : Int) (whence : Whence) :
    Option Int :=
  if f.bufferSize ≤ 0 ∨ f.cursor + f.count ≤ 0 then none
  else
    match whence with
    | Whence.seekSet =>
      if 0 ≤ offset ∧ f.base_offset ≤ offset ∧
          offset < f.base_offset + f.cursor + f.count then
        some ((offset - f.base_offset) - f.cursor)
      else none
    | Whence.seekCur =>
      if 0 < offset then
        (if offset ≤ f.count then some offset else none)
      else if offset < 0 then
        (if 0 < f.cursor + offset then some offset else none)
      else some 0
    | Whence.seekEnd => none

/-- `isioFileSeek` (isio.c:703): in-window seeks adjust `ptr`/`count`
locally; otherwise flush, one remote seek, one remote position query,
and mark the buffer empty. -/
def isioFileSeek (I : RemoteIface ρ) (f : ISIO_FILE) (r : ρ)
    (offset : Int) (whence : Whence) : Int × ISIO_FILE × ρ :=
  match offset_in_current_buffer f offset whence with
  | some adj =>
    (0, { f with cursor := f.cursor + adj, count := f.count - adj }, r)
  | none =>
    let fl := isioFlush I f r
    if fl.1 < 0 then (fl.1, fl.2.1, fl.2.2) else
    let sk := I.lseekObj fl.2.2 offset whence
    let tl := isioFileTell I sk.2.2
    (if 0 < sk.1 then 0 else sk.1,
     { fl.2.1 with base_offset := tl.1 - sk.1, cursor := 0, count := 0 },
     tl.2)

/-- `isioFileClose` (isio.c:623): flush, destroy the handle, one remote
close; on a flush error the handle survives and the error is returned. -/
def isioFileClose (I : RemoteIface ρ) (f : ISIO_FILE) (r : ρ) :
    Int × Option ISIO_FILE × ρ :=
  let fl := isioFlush I f r
  if fl.1 < 0 then (fl.1, some fl.2.1, fl.2.2) else
  let cl := I.closeObj fl.2.2
  (cl.1, none, cl.2)

/-- `isioFilePutc` (isio.c:892): a one-byte write (the low byte of the
`int` argument on a little-endian target). -/
def isioFilePutc (I : RemoteIface ρ) (inchar : Int) (f : ISIO_FILE) (r : ρ) :
    Int × ISIO_FILE × ρ :=
  isioFileWrite I f r [(inchar % 256).toNat]

/-- `isioFileGetc` (isio.c:917): a one-byte read; 0 bytes means `EOF`. -/
def isioFileGetc (I : RemoteIface ρ) (f : ISIO_FILE) (r : ρ) : Int × ISIO_FILE × ρ :=
  let rd := isioFileRead I f r 1
  if rd.1 = 0 then (EOF, rd.2.2.1, rd.2.2.2)
  else if rd.1 < 0 then (rd.1, rd.2.2.1, rd.2.2.2)
  else ((rd.2.1.headD 0 : Nat), rd.2.2.1, rd.2.2.2)

/-- `add_to_map` (isio.c:160): store the handle in the first free slot
of the fixed `_cacheInfo` table, returning the 1-based index; `none`
(NULL) when the argument is NULL or the table is full. -/
def add_to_map (t : List (Option ISIO_FILE)) (ifp : Option ISIO_FILE) :
    Option Nat × List (Option ISIO_FILE) :=
  match ifp with
  | none => (none, t)
  | some f =>
    match t.findIdx? Option.isNone with
    | some i => (some (i + 1), t.set i (some f))
    | none => (none, t)

/-- `is_in_map` (isio.c:180): look up a 1-based index in the table. -/
def is_in_map (t : List (Option ISIO_FILE)) (idx : Int) : Option ISIO_FILE :=
  if 0 ≤ idx - 1 ∧ idx - 1 < (ISIO_MAX_OPEN_FILES : Int) then
    t.getD (idx - 1).toNat none
  else none

/-- `irodsfopen` on an `irods:` path whose remote open succeeded or
failed (`openResult`): the result of `add_to_map(isioFileOpen(...))`
(isio.c:266). -/
def irodsfopen_remote (t : List (Option ISIO_FILE)) (openResult : Option ISIO_FILE) :
    Option Nat × List (Option ISIO_FILE) :=
  add_to_map t openResult

/-- `irodsfclose` on a mapped stream (isio.c:643): runs `isioFileClose`
on the mapped handle.  The source never clears the `_cacheInfo` slot,
so the table is returned unchanged.  `none` = unmapped stream
(local `fclose` passthrough, outside the core). -/
def irodsfclose_remote (I : RemoteIface ρ) (t : List (Option ISIO_FILE)) (r : ρ)
    (idx : Int) : Option (Int × List (Option ISIO_FILE) × ρ) :=
  match is_in_map t idx with
  | some f =>
    let res := isioFileClose I f r
    some (res.1, t, res.2.2)
  | none => none

/-- `irodsfread` on a mapped stream (isio.c:469):
`isioFileRead(ifp, buffer, itemsize*nitems) / itemsize`, the `int`
status being converted to `size_t` (`% 2 ^ 64`) by the division. -/
def irodsfread (I : RemoteIface ρ) (t : List (Option ISIO_FILE)) (r : ρ) (idx : Int)
    (itemsize nitems : Nat) : Option (Nat × List Nat × ISIO_FILE × ρ) :=
  match is_in_map t idx with
  | some f =>
    let res := isioFileRead I f r (itemsize * nitems % 2 ^ 64)
    some ((res.1 % 2 ^ 64).toNat / itemsize, res.2.1, res.2.2.1, res.2.2.2)
  | none => none

/-- `irodsfwrite` on a mapped stream (isio.c:607):
`isioFileWrite(ifp, buffer, itemsize*nitems) / itemsize`. -/
def irodsfwrite (I : RemoteIface ρ) (t : List (Option ISIO_FILE)) (r : ρ) (idx : Int)
    (src : List Nat) (itemsize nitems : Nat) : Option (Nat × ISIO_FILE × ρ) :=
  match is_in_map t idx with
  | some f =>
    let res := isioFileWrite I f r (src.take (itemsize * nitems % 2 ^ 64))
    some ((res.1 % 2 ^ 64).toNat / itemsize, res.2.1, res.2.2)
  | none => none

/-- Write `bs` into a byte store at position `pos`, zero-padding any
gap (sparse write, as the server would). -/
def storeWrite (data : List Nat) (pos : Nat) (bs : List Nat) : List Nat :=
  writeAt (data ++ List.replicate (pos - data.length) 0) pos bs

/-- The state of the ideal remote object store: the object's bytes, the
current position, plus instrumentation (a remote-call counter and the
log of write payloads). -/
structure RemoteObj where
  data : List Nat
  pos : Nat
  calls : Nat
  log : List (List Nat)
deriving DecidableEq, Repr

/-- A freshly created, empty remote object. -/
def freshRemote : RemoteObj :=
  { data := [], pos := 0, calls := 0, log := [] }

/-- The faithful byte-store collaborator: reads return the available
bytes at the current position, writes overwrite/extend at the current
position, seeks move the position.  Every remote primitive bumps
`calls`. -/
def idealIface : RemoteIface RemoteObj where
  readObj r len :=
    let bytes := (r.data.drop r.pos).take len.toNat
    ((bytes.length : Int), bytes,
     { r with pos := r.pos + bytes.length, calls := r.calls + 1 })
  writeObj r bs :=
    ((bs.length : Int),
     { r with data := storeWrite r.data r.pos bs
              pos := r.pos + bs.length
              calls := r.calls + 1
              log := r.log ++ [bs] })
  lseekObj r offset whence :=
    let target : Int :=
      match whence with
      | Whence.seekSet => offset
      | Whence.seekCur => (r.pos : Int) + offset
      | Whence.seekEnd => (r.data.length : Int) + offset
    if target < 0 then (-4, 0, { r with calls := r.calls + 1 })
    else (0, target, { r with pos := target.toNat, calls := r.calls + 1 })
  closeObj r := (0, { r with calls := r.calls + 1 })
  allocOk r _ := (true, r)

/-- A collaborator whose every remote write returns the fixed status
`wstat` (reads return 0 bytes, seeks succeed at position 0); the state
is the number of remote calls performed. -/
def constWriteIface (wstat : Int) : RemoteIface Nat where
  readObj n _ := (0, [], n + 1)
  writeObj n _ := (wstat, n + 1)
  lseekObj n _ _ := (0, 0, n + 1)
  closeObj n := (0, n + 1)
  allocOk n _ := (true, n)

/-- The ideal collaborator with a failing remote read (status `rstat`). -/
def readFailIface (rstat : Int) : RemoteIface RemoteObj :=
  { idealIface with
    readObj := fun r _ => (rstat, [], { r with calls := r.calls + 1 }) }

/-- The ideal collaborator with a failing allocation primitive. -/
def allocFailIface : RemoteIface RemoteObj :=
  { idealIface with allocOk := fun r _ => (false, r) }

/-- The bounds invariant of the spec (and of the asserts in isio.c):
`0 ≤ cursor ≤ bufferCapacity` and `cursor + unreadCount ≤ bufferCapacity`,
stated on the struct's own `bufferSize` field. -/
def BoundsInv (f : ISIO_FILE) : Prop :=
  0 ≤ f.cursor ∧ f.cursor ≤ f.bufferSize ∧ f.cursor + f.count ≤ f.bufferSize

instance (f : ISIO_FILE) : Decidable (BoundsInv f) := by
  unfold BoundsInv; infer_instance

/-- Well-formedness of a live handle state, as established by
`new_isio_file` and relied on by the operations: bounds invariant,
non-negative unread count, a positive capacity below `INT_MAX`, and a
`bufferSize` field not exceeding the actual allocation. -/
def GoodState (f : ISIO_FILE) : Prop :=
  0 ≤ f.cursor ∧ 0 ≤ f.count ∧ f.cursor + f.count ≤ f.bufferSize ∧
  0 < f.bufferSize ∧ f.bufferSize < 2 ^ 31 ∧ f.bufferSize ≤ (f.buf.length : Int)

instance (f : ISIO_FILE) : Decidable (GoodState f) := by
  unfold GoodState; infer_instance

/-- The round-trip scenario of the spec: on a freshly opened handle over
a fresh remote object, write `bs` at offset 0, seek back to 0, read
`bs.length` bytes; result = (read status, delivered bytes). -/
def roundTrip (bs : List Nat) : Int × List Nat :=
  let w := isioFileWrite idealIface freshFile freshRemote bs
  let s := isioFileSeek idealIface w.2.1 w.2.2 0 Whence.seekSet
  let rd := isioFileRead idealIface s.2.1 s.2.2 bs.length
  (rd.1, rd.2.1)

/-! ### Byte-string evaluation lemmas

Concrete runs are over all-zero byte strings; these lemmas let every
buffer computation stay in `zeros` form, which keeps proofs (and their
kernel checks) independent of the byte-string length. -/

theorem zeros_length (n : Nat) : (zeros n).length = n := by
  simp [zeros, -List.reduceReplicate]

theorem zeros_take_ge (n k : Nat) (h : n ≤ k) : (zeros n).take k = zeros n := by
  simp [zeros, List.take_replicate, -List.reduceReplicate, Nat.min_eq_right h]

theorem zeros_take_le (n k : Nat) (h : k ≤ n) : (zeros n).take k = zeros k := by
  simp [zeros, List.take_replicate, -List.reduceReplicate, Nat.min_eq_left h]

theorem zeros_drop (n k : Nat) : (zeros n).drop k = zeros (n - k) := by
  simp [zeros, List.drop_replicate, -List.reduceReplicate]

theorem zeros_append (a b : Nat) : zeros a ++ zeros b = zeros (a + b) := by
  simp [zeros, ← List.replicate_add, -List.reduceReplicate]

theorem replicate_eq_zeros (n : Nat) : List.replicate n 0 = zeros n := rfl

theorem zeros_writeAt (m k : Nat) (hk : k ≤ m) :
    writeAt (zeros m) 0 (zeros k) = zeros m := by
  rw [writeAt, List.take_zero, zeros_length, zeros_drop, List.nil_append, zeros_append]
  have : k + (m - k) = m := Nat.add_sub_cancel' hk
  rw [Nat.zero_add, this]

theorem zeros_reallocBuf (m n : Nat) : reallocBuf (zeros m) n = zeros n := by
  rw [reallocBuf, replicate_eq_zeros, zeros_append]
  exact zeros_take_le _ _ (Nat.le_add_left n m)

theorem freshFile_buf : freshFile.buf = zeros 65536 := rfl

/-! ### Branch lemmas

One lemma per control-flow branch of each operation, with the branch
conditions as hypotheses; concrete runs are assembled from these. -/

theorem isioFlush_clean (I : RemoteIface ρ) (f : ISIO_FILE) (r : ρ)
    (hd : f.dirty = false) : isioFlush I f r = (0, f, r) := by
  simp [isioFlush, hd]

theorem isioFlush_dirty (I : RemoteIface ρ) (f : ISIO_FILE) (r : ρ)
    (hd : f.dirty = true) :
    isioFlush I f r =
      ((I.writeObj r (f.buf.take (f.cursor + f.count).toNat)).1,
       if 0 ≤ (I.writeObj r (f.buf.take (f.cursor + f.count).toNat)).1 then
         { f with dirty := false } else f,
       (I.writeObj r (f.buf.take (f.cursor + f.count).toNat)).2) := by
  simp [isioFlush, hd]

theorem idealIface_readObj (r : RemoteObj) (len : Int) :
    idealIface.readObj r len =
      ((((r.data.drop r.pos).take len.toNat).length : Int),
       (r.data.drop r.pos).take len.toNat,
       { r with pos := r.pos + ((r.data.drop r.pos).take len.toNat).length
                calls := r.calls + 1 }) := rfl

theorem idealIface_writeObj (r : RemoteObj) (bs : List Nat) :
    idealIface.writeObj r bs =
      ((bs.length : Int),
       { r with data := storeWrite r.data r.pos bs
                pos := r.pos + bs.length
                calls := r.calls + 1
                log := r.log ++ [bs] }) := rfl

theorem idealIface_allocOk (r : RemoteObj) (n : Int) :
    idealIface.allocOk r n = (true, r) := rfl

theorem isioFileTell_ideal (r : RemoteObj) :
    isioFileTell idealIface r = ((r.pos : Int), { r with calls := r.calls + 1 }) := by
  have h : ¬ ((r.pos : Int) < 0) := by omega
  simp [isioFileTell, idealIface, h]

theorem isioFillBuffer_bad (I : RemoteIface ρ) (f : ISIO_FILE) (r : ρ)
    (h : f.bufferSize ≤ 0) : isioFillBuffer I f r = (-2, f, r) := by
  simp [isioFillBuffer, h]

theorem isioFillBuffer_ideal (f : ISIO_FILE) (r : RemoteObj)
    (h : ¬ f.bufferSize ≤ 0) :
    isioFillBuffer idealIface f r =
      (0,
       { f with base_offset := (r.pos : Int)
                buf := (r.data.drop r.pos).take f.bufferSize.toNat ++
                  f.buf.drop ((r.data.drop r.pos).take f.bufferSize.toNat).length
                cursor := 0
                count := (((r.data.drop r.pos).take f.bufferSize.toNat).length : Int) },
       { r with pos := r.pos + ((r.data.drop r.pos).take f.bufferSize.toNat).length
                calls := r.calls + 2 }) := by
  have h2 : ¬ ((((r.data.drop r.pos).take f.bufferSize.toNat).length : Int) < 0) := by
    omega
  simp only [isioFillBuffer, if_neg h, isioFileTell_ideal, idealIface_readObj, if_neg h2]

theorem readFailIface_readObj (e : Int) (r : RemoteObj) (len : Int) :
    (readFailIface e).readObj r len = (e, [], { r with calls := r.calls + 1 }) := rfl

theorem isioFileTell_readFail (e : Int) (r : RemoteObj) :
    isioFileTell (readFailIface e) r =
      ((r.pos : Int), { r with calls := r.calls + 1 }) := by
  have h : ¬ ((r.pos : Int) < 0) := by omega
  simp [isioFileTell, readFailIface, idealIface, h]

theorem isioFillBuffer_readFail (f : ISIO_FILE) (r : RemoteObj) (e : Int)
    (h : ¬ f.bufferSize ≤ 0) (he : e < 0) :
    isioFillBuffer (readFailIface e) f r =
      (e, { f with base_offset := (r.pos : Int) }, { r with calls := r.calls + 2 }) := by
  simp only [isioFillBuffer, if_neg h, isioFileTell_readFail, readFailIface_readObj,
    if_pos he]

theorem isioFileRead_zero (I : RemoteIface ρ) (f : ISIO_FILE) (r : ρ) :
    isioFileRead I f r 0 = (0, [], f, r) := by
  simp [isioFileRead]

theorem isioFileRead_flushErr (I : RemoteIface ρ) (f : ISIO_FILE) (r : ρ)
    (n : Nat) (h0 : n ≠ 0) (h : (isioFlush I f r).1 < 0) :
    isioFileRead I f r n = ((isioFlush I f r).1, [], (isioFlush I f r).2.1,
      (isioFlush I f r).2.2) := by
  simp [isioFileRead, h0, h]

theorem isioFileRead_body (I : RemoteIface ρ) (f : ISIO_FILE) (r : ρ)
    (n : Nat) (h0 : n ≠ 0) (h : ¬ (isioFlush I f r).1 < 0) :
    isioFileRead I f r n = readBody I (isioFlush I f r).2.1 (isioFlush I f r).2.2 n := by
  simp [isioFileRead, h0, h]

theorem readBody_hit (I : RemoteIface ρ) (f1 : ISIO_FILE) (r1 : ρ) (n : Nat)
    (hc : 0 < f1.count) (hge : (n : Int) ≤ f1.count) :
    readBody I f1 r1 n =
      ((n : Int), (f1.buf.drop f1.cursor.toNat).take n,
       { f1 with cursor := f1.cursor + (n : Int), count := f1.count - (n : Int) }, r1) := by
  simp [readBody, hc, hge]

theorem readBody_split (I : RemoteIface ρ) (f1 : ISIO_FILE) (r1 : ρ) (n : Nat)
    (hc : 0 < f1.count) (hlt : ¬ ((n : Int) ≤ f1.count)) :
    readBody I f1 r1 n =
      readRefill I { f1 with cursor := 0, count := 0 } r1
        ((f1.buf.drop f1.cursor.toNat).take f1.count.toNat) f1.count
        ((n : Int) - f1.count) := by
  simp [readBody, hc, hlt]

theorem readBody_empty (I : RemoteIface ρ) (f1 : ISIO_FILE) (r1 : ρ) (n : Nat)
    (hc : ¬ 0 < f1.count) :
    readBody I f1 r1 n = readRefill I f1 r1 [] 0 (n : Int) := by
  have : ¬ (0 < f1.count ∧ (n : Int) ≤ f1.count) := fun h => hc h.1
  simp [readBody, this, hc]

theorem readRefill_reuse (I : RemoteIface ρ) (f2 : ISIO_FILE) (r1 : ρ)
    (part1 : List Nat) (rc1 reqSize : Int)
    (h : ¬ f2.bufferSize < 2 * reqSize + 8) :
    readRefill I f2 r1 part1 rc1 reqSize =
      readDeliver I { f2 with cursor := 0, count := 0 } r1 part1 rc1 reqSize := by
  simp [readRefill, h]

theorem readRefill_grow (I : RemoteIface ρ) (f2 : ISIO_FILE) (r1 r2 : ρ)
    (part1 : List Nat) (rc1 reqSize : Int)
    (h1 : f2.bufferSize < 2 * reqSize + 8)
    (h2 : 2 * reqSize + 8 ≤ (ISIO_MAX_BUF_SIZE : Int))
    (hA : I.allocOk r1 (2 * reqSize + 8) = (true, r2)) :
    readRefill I f2 r1 part1 rc1 reqSize =
      readDeliver I
        { f2 with buf := reallocBuf f2.buf (2 * reqSize + 8).toNat
                  bufferSize := 2 * reqSize + 8
                  cursor := 0
                  count := 0 } r2 part1 rc1 reqSize := by
  simp [readRefill, h1, h2, hA]

theorem readRefill_growFail (I : RemoteIface ρ) (f2 : ISIO_FILE) (r1 r2 : ρ)
    (part1 : List Nat) (rc1 reqSize : Int)
    (h1 : f2.bufferSize < 2 * reqSize + 8)
    (h2 : 2 * reqSize + 8 ≤ (ISIO_MAX_BUF_SIZE : Int))
    (hA : I.allocOk r1 (2 * reqSize + 8) = (false, r2)) :
    readRefill I f2 r1 part1 rc1 reqSize =
      (-99, part1, { f2 with buf := [] }, r2) := by
  simp [readRefill, h1, h2, hA]

theorem readRefill_bypass (I : RemoteIface ρ) (f2 : ISIO_FILE) (r1 : ρ)
    (part1 : List Nat) (rc1 reqSize : Int)
    (h1 : f2.bufferSize < 2 * reqSize + 8)
    (h2 : ¬ (2 * reqSize + 8 ≤ (ISIO_MAX_BUF_SIZE : Int))) :
    readRefill I f2 r1 part1 rc1 reqSize = readBypass I f2 r1 part1 rc1 reqSize := by
  simp [readRefill, h1, h2]

theorem isioFileWrite_nil (I : RemoteIface ρ) (f : ISIO_FILE) (r : ρ)
    (src : List Nat) (h : src.length = 0) : isioFileWrite I f r src = (0, f, r) := by
  simp [isioFileWrite, h]

theorem isioFileWrite_fits (I : RemoteIface ρ) (f : ISIO_FILE) (r : ρ)
    (src : List Nat) (h0 : src.length ≠ 0)
    (h1 : (src.length : Int) ≤ (f.bufferSize - f.cursor) % 2 ^ 64) :
    isioFileWrite I f r src =
      ((src.length : Int),
       { f with dirty := true
                buf := writeAt f.buf f.cursor.toNat src
                cursor := f.cursor + (src.length : Int)
                count := max (f.count - (src.length : Int)) 0 }, r) := by
  simp only [isioFileWrite]
  rw [if_neg h0, if_pos h1, if_pos rfl, Int.toNat_natCast, List.take_length]

theorem isioFileWrite_overflow (I : RemoteIface ρ) (f : ISIO_FILE) (r : ρ)
    (src : List Nat) (h0 : src.length ≠ 0)
    (h1 : ¬ ((src.length : Int) ≤ (f.bufferSize - f.cursor) % 2 ^ 64))
    (h2 : f.bufferSize - f.cursor ≠ (src.length : Int)) :
    isioFileWrite I f r src =
      (let f1 : ISIO_FILE :=
        { f with dirty := true
                 buf := writeAt f.buf f.cursor.toNat (src.take (f.bufferSize - f.cursor).toNat)
                 cursor := f.cursor + (f.bufferSize - f.cursor)
                 count := max (f.count - (f.bufferSize - f.cursor)) 0 }
       let fl := isioFlush I f1 r
       if fl.1 < 0 then (fl.1, fl.2.1, fl.2.2) else
       writeOverflow I { fl.2.1 with cursor := 0, count := 0 } fl.2.2 src
         (f.bufferSize - f.cursor)) := by
  simp only [isioFileWrite]
  rw [if_neg h0, if_neg h1, if_neg h2]

theorem writeOverflow_bypass (I : RemoteIface ρ) (f2 : ISIO_FILE) (r1 : ρ)
    (src : List Nat) (wrtSize : Int)
    (h : (ISIO_MAX_BUF_SIZE : Int) < (src.length : Int) - wrtSize) :
    writeOverflow I f2 r1 src wrtSize =
      (let wr := I.writeObj r1 (src.drop wrtSize.toNat)
       if wr.1 < 0 then (wr.1, f2, wr.2) else
       (wr.1, { f2 with base_offset :=
          f2.base_offset + f2.bufferSize + ((src.length : Int) - wrtSize) }, wr.2)) := by
  simp [writeOverflow, h]

theorem writeOverflow_grow (I : RemoteIface ρ) (f2 : ISIO_FILE) (r1 r2 : ρ)
    (src : List Nat) (wrtSize : Int)
    (h1 : ¬ ((ISIO_MAX_BUF_SIZE : Int) < (src.length : Int) - wrtSize))
    (h2 : f2.bufferSize < (src.length : Int) - wrtSize)
    (hA : I.allocOk r1 (2 * ((src.length : Int) - wrtSize) + 8) = (true, r2)) :
    writeOverflow I f2 r1 src wrtSize =
      writeTail
        { f2 with buf := reallocBuf f2.buf (2 * ((src.length : Int) - wrtSize) + 8).toNat
                  cursor := 0 } src wrtSize r2 := by
  simp [writeOverflow, h1, h2, hA]

theorem writeOverflow_growFail (I : RemoteIface ρ) (f2 : ISIO_FILE) (r1 r2 : ρ)
    (src : List Nat) (wrtSize : Int)
    (h1 : ¬ ((ISIO_MAX_BUF_SIZE : Int) < (src.length : Int) - wrtSize))
    (h2 : f2.bufferSize < (src.length : Int) - wrtSize)
    (hA : I.allocOk r1 (2 * ((src.length : Int) - wrtSize) + 8) = (false, r2)) :
    writeOverflow I f2 r1 src wrtSize = (0, { f2 with buf := [] }, r2) := by
  simp [writeOverflow, h1, h2, hA]

theorem writeOverflow_fits (I : RemoteIface ρ) (f2 : ISIO_FILE) (r1 : ρ)
    (src : List Nat) (wrtSize : Int)
    (h1 : ¬ ((ISIO_MAX_BUF_SIZE : Int) < (src.length : Int) - wrtSize))
    (h2 : ¬ (f2.bufferSize < (src.length : Int) - wrtSize)) :
    writeOverflow I f2 r1 src wrtSize = writeTail f2 src wrtSize r1 := by
  simp [writeOverflow, h1, h2]

theorem isioFileSeek_local (I : RemoteIface ρ) (f : ISIO_FILE) (r : ρ)
    (offset : Int) (whence : Whence) (adj : Int)
    (h : offset_in_current_buffer f offset whence = some adj) :
    isioFileSeek I f r offset whence =
      (0, { f with cursor := f.cursor + adj, count := f.count - adj }, r) := by
  simp [isioFileSeek, h]

theorem isioFileSeek_remote (I : RemoteIface ρ) (f : ISIO_FILE) (r : ρ)
    (offset : Int) (whence : Whence)
    (h : offset_in_current_buffer f offset whence = none)
    (hfl : ¬ (isioFlush I f r).1 < 0) :
    isioFileSeek I f r offset whence =
      (let fl := isioFlush I f r
       let sk := I.lseekObj fl.2.2 offset whence
       let tl := isioFileTell I sk.2.2
       (if 0 < sk.1 then 0 else sk.1,
        { fl.2.1 with base_offset := tl.1 - sk.1, cursor := 0, count := 0 },
        tl.2)) := by
  simp [isioFileSeek, h, hfl]

/-! ### Evaluation helpers for concrete runs -/

theorem freshFile_bufferSize : freshFile.bufferSize = 65536 := rfl

theorem freshFile_cursor : freshFile.cursor = 0 := rfl

theorem freshFile_count : freshFile.count = 0 := rfl

theorem freshFile_dirty : freshFile.dirty = false := rfl

theorem freshFile_base : freshFile.base_offset = 0 := rfl

theorem freshFile_l1 : freshFile.l1descInx = 0 := rfl

theorem storeWrite_fresh (bs : List Nat) : storeWrite [] 0 bs = bs := by
  simp [storeWrite, writeAt, -List.reduceReplicate]

theorem storeWrite_zeros_append (a k : Nat) :
    storeWrite (zeros a) a (zeros k) = zeros (a + k) := by
  rw [storeWrite, writeAt]
  simp only [zeros_length, Nat.sub_self,
    show List.replicate 0 (0 : Nat) = zeros 0 from rfl, zeros_append, zeros_drop]
  rw [zeros_take_le _ _ (by omega), zeros_append, zeros_append]
  have h : a + k + (a + 0 - (a + k)) = a + k := by omega
  rw [h]

theorem constWriteIface_writeObj (wstat : Int) (n : Nat) (bs : List Nat) :
    (constWriteIface wstat).writeObj n bs = (wstat, n + 1) := rfl

theorem allocFailIface_writeObj (r : RemoteObj) (bs : List Nat) :
    allocFailIface.writeObj r bs = idealIface.writeObj r bs := rfl

theorem allocFailIface_allocOk (r : RemoteObj) (n : Int) :
    allocFailIface.allocOk r n = (false, r) := rfl

theorem oicb_set_hit (f : ISIO_FILE) (offset : Int)
    (hb : ¬ (f.bufferSize ≤ 0 ∨ f.cursor + f.count ≤ 0))
    (h : 0 ≤ offset ∧ f.base_offset ≤ offset ∧
      offset < f.base_offset + f.cursor + f.count) :
    offset_in_current_buffer f offset Whence.seekSet =
      some ((offset - f.base_offset) - f.cursor) := by
  simp [offset_in_current_buffer, hb, h]

theorem oicb_set_miss (f : ISIO_FILE) (offset : Int)
    (h : ¬ (0 ≤ offset ∧ f.base_offset ≤ offset ∧
      offset < f.base_offset + f.cursor + f.count)) :
    offset_in_current_buffer f offset Whence.seekSet = none := by
  by_cases hb : f.bufferSize ≤ 0 ∨ f.cursor + f.count ≤ 0 <;>
    simp [offset_in_current_buffer, hb, h]

theorem oicb_empty (f : ISIO_FILE) (offset : Int) (whence : Whence)
    (hb : f.bufferSize ≤ 0 ∨ f.cursor + f.count ≤ 0) :
    offset_in_current_buffer f offset whence = none := by
  simp [offset_in_current_buffer, hb]

/-- Evaluation of a flush of a full 65536-byte all-zero buffer on the
fresh remote object, for any collaborator whose remote write is the
ideal one. -/
theorem flush_full_fresh (I : RemoteIface RemoteObj)
    (hW : I.writeObj = idealIface.writeObj) : isioFlush I
      { base_offset := 0, buf := zeros 65536, bufferSize := 65536, cursor := 65536,
        count := 0, dirty := true, l1descInx := 0 } freshRemote =
      (65536,
       { base_offset := 0, buf := zeros 65536, bufferSize := 65536, cursor := 65536,
         count := 0, dirty := false, l1descInx := 0 },
       { data := zeros 65536, pos := 65536, calls := 1, log := [zeros 65536] }) := by
  rw [isioFlush_dirty _ _ _ rfl, hW]
  rw [show ((65536 : Int) + 0) = 65536 from by norm_num,
    show Int.toNat (65536 : Int) = 65536 from rfl,
    zeros_take_ge _ _ (le_refl _), idealIface_writeObj, zeros_length]
  rw [show freshRemote.data = [] from rfl, show freshRemote.pos = 0 from rfl,
    show freshRemote.calls = 0 from rfl, show freshRemote.log = [] from rfl,
    storeWrite_fresh]
  simp

/-- Evaluation of `isioFileWrite` of 131073 bytes on a fresh handle over
a collaborator with ideal remote write and allocation behaviour:
65536 bytes are cached and flushed, the 65537-byte remainder takes the
buffer-grow path, which reallocates to 131082 bytes but leaves the
`bufferSize` field at 65536 (isio.c:585-593). -/
theorem write_grow_trace (I : RemoteIface RemoteObj)
    (hW : I.writeObj = idealIface.writeObj)
    (hA : I.allocOk = idealIface.allocOk) :
    isioFileWrite I freshFile freshRemote (zeros 131073) =
      (131073,
       { base_offset := 0, buf := zeros 131082, bufferSize := 65536, cursor := 65537,
         count := 0, dirty := true, l1descInx := 0 },
       { data := zeros 65536, pos := 65536, calls := 1, log := [zeros 65536] }) := by
  rw [isioFileWrite_overflow I freshFile freshRemote (zeros 131073)
      (by rw [zeros_length]; norm_num)
      (by rw [zeros_length, freshFile_bufferSize, freshFile_cursor]; norm_num)
      (by rw [zeros_length, freshFile_bufferSize, freshFile_cursor]; norm_num)]
  rw [freshFile_bufferSize, freshFile_cursor]
  rw [show (65536 : Int) - 0 = 65536 from by norm_num]
  rw [show writeAt freshFile.buf (Int.toNat 0) ((zeros 131073).take (Int.toNat 65536)) =
      zeros 65536 from by
    rw [freshFile_buf, show Int.toNat (65536 : Int) = 65536 from rfl,
      show Int.toNat (0 : Int) = 0 from rfl, zeros_take_le _ _ (by norm_num)]
    exact zeros_writeAt _ _ (by norm_num)]
  rw [freshFile_count, freshFile_base, freshFile_l1]
  rw [show (0 : Int) + 65536 = 65536 from by norm_num,
    show max ((0 : Int) - 65536) 0 = 0 from by norm_num]
  simp only []
  rw [flush_full_fresh I hW]
  rw [if_neg (by norm_num : ¬ (65536 : Int) < 0)]
  rw [writeOverflow_grow I _ _ _ (zeros 131073) 65536
      (by rw [zeros_length]; norm_num [ISIO_MAX_BUF_SIZE])
      (by rw [zeros_length]; norm_num) (by rw [hA]; rfl)]
  simp only [writeTail, zeros_length]
  rw [show (2 * (((131073 : Nat) : Int) - 65536) + 8) = 131082 from by norm_num,
    show Int.toNat (131082 : Int) = 131082 from rfl]
  simp only [zeros_reallocBuf]
  rw [show Int.toNat (65536 : Int) = 65536 from rfl, zeros_drop]
  rw [show (131073 - 65536 : Nat) = 65537 from by norm_num]
  simp only [show (0 : Int).toNat = 0 from rfl]
  rw [zeros_writeAt _ _ (by norm_num)]
  simp

/-- C1: the bounds invariant `0 ≤ cursor ≤ bufferCapacity ∧
cursor + unreadCount ≤ bufferCapacity` holds on a fresh handle but is
violated after a write whose remainder exceeds the current capacity:
writing 131073 bytes to a fresh handle leaves `cursor = 65537` although
the `bufferSize` field still reads 65536, because the grow path of
`isioFileWrite` reallocates without updating `bufferSize`. -/
theorem c1_write_grow_breaks_bounds_invariant :
    BoundsInv freshFile ∧
    (isioFileWrite idealIface freshFile freshRemote (zeros 131073)).2.1.cursor = 65537 ∧
    (isioFileWrite idealIface freshFile freshRemote (zeros 131073)).2.1.bufferSize = 65536 ∧
    ¬ BoundsInv (isioFileWrite idealIface freshFile freshRemote (zeros 131073)).2.1 := by
  refine ⟨by decide, ?_, ?_, ?_⟩
  · rw [write_grow_trace idealIface rfl rfl]
  · rw [write_grow_trace idealIface rfl rfl]
  · rw [write_grow_trace idealIface rfl rfl]; decide

/-! ### C2: the round-trip scenario -/

theorem writeAt_zeros_front (m : Nat) (bs : List Nat) :
    writeAt (zeros m) 0 bs = bs ++ zeros (m - bs.length) := by
  rw [writeAt, List.take_zero, List.nil_append, Nat.zero_add, zeros_drop]

/-- Writing `bs` (at most the initial capacity) on a fresh handle is
served entirely from the cache buffer: no remote call, the bytes sit at
the start of the buffer and `cursor = bs.length`. -/
theorem write_fits_fresh (bs : List Nat)
    (h1 : 1 ≤ bs.length) (h2 : bs.length ≤ 65536) :
    isioFileWrite idealIface freshFile freshRemote bs =
      ((bs.length : Int),
       { base_offset := 0, buf := bs ++ zeros (65536 - bs.length), bufferSize := 65536,
         cursor := (bs.length : Int), count := 0, dirty := true, l1descInx := 0 },
       freshRemote) := by
  rw [isioFileWrite_fits idealIface freshFile freshRemote bs (by omega)
      (by rw [freshFile_bufferSize, freshFile_cursor]
          rw [show ((65536 : Int) - 0) % 2 ^ 64 = 65536 from by norm_num]
          exact_mod_cast h2)]
  simp only [freshFile_buf, freshFile_bufferSize, freshFile_cursor, freshFile_count,
    freshFile_base, freshFile_l1]
  rw [show Int.toNat 0 = 0 from rfl, writeAt_zeros_front]
  rw [zero_add, max_eq_right (by omega : (0 : Int) - (bs.length : Int) ≤ 0)]

/-- After the fitting write, a `SEEK_SET` back to offset 0 is resolved
inside the buffer (`windowBase = 0`): cursor back to 0, the written
bytes become unread. -/
theorem seek0_after_write (bs : List Nat) (h1 : 1 ≤ bs.length) :
    isioFileSeek idealIface
      { base_offset := 0, buf := bs ++ zeros (65536 - bs.length), bufferSize := 65536,
        cursor := (bs.length : Int), count := 0, dirty := true, l1descInx := 0 }
      freshRemote 0 Whence.seekSet =
      (0,
       { base_offset := 0, buf := bs ++ zeros (65536 - bs.length), bufferSize := 65536,
         cursor := 0, count := (bs.length : Int), dirty := true, l1descInx := 0 },
       freshRemote) := by
  rw [isioFileSeek_local idealIface _ _ 0 Whence.seekSet ((0 - 0) - (bs.length : Int))
      (oicb_set_hit _ 0
        (by show ¬ ((65536 : Int) ≤ 0 ∨ (bs.length : Int) + 0 ≤ 0); omega)
        (by show (0 : Int) ≤ 0 ∧ (0 : Int) ≤ 0 ∧ (0 : Int) < 0 + (bs.length : Int) + 0
            omega))]
  have hc : (bs.length : Int) + ((0 - 0) - (bs.length : Int)) = 0 := by omega
  have hn : (0 : Int) - ((0 - 0) - (bs.length : Int)) = (bs.length : Int) := by omega
  rw [hc, hn]

/-- Reading `bs.length` bytes after the seek: the dirty buffer is first
flushed to the remote object (at position 0), then the request is fully
served from the cache, returning exactly `bs`. -/
theorem read_back_after_seek (bs : List Nat)
    (h1 : 1 ≤ bs.length) (h2 : bs.length ≤ 65536) :
    isioFileRead idealIface
      { base_offset := 0, buf := bs ++ zeros (65536 - bs.length), bufferSize := 65536,
        cursor := 0, count := (bs.length : Int), dirty := true, l1descInx := 0 }
      freshRemote bs.length =
      ((bs.length : Int), bs,
       { base_offset := 0, buf := bs ++ zeros (65536 - bs.length), bufferSize := 65536,
         cursor := (bs.length : Int), count := 0, dirty := false, l1descInx := 0 },
       { data := bs, pos := bs.length, calls := 1, log := [bs] }) := by
  have hF : isioFlush idealIface
      { base_offset := 0, buf := bs ++ zeros (65536 - bs.length), bufferSize := 65536,
        cursor := 0, count := (bs.length : Int), dirty := true, l1descInx := 0 }
      freshRemote =
      ((bs.length : Int),
       { base_offset := 0, buf := bs ++ zeros (65536 - bs.length), bufferSize := 65536,
         cursor := 0, count := (bs.length : Int), dirty := false, l1descInx := 0 },
       { data := bs, pos := bs.length, calls := 1, log := [bs] }) := by
    rw [isioFlush_dirty _ _ _ rfl]
    rw [show ((0 : Int) + (bs.length : Int)).toNat = bs.length from by omega]
    rw [List.take_left' rfl, idealIface_writeObj]
    rw [show freshRemote.data = [] from rfl, show freshRemote.pos = 0 from rfl,
      show freshRemote.calls = 0 from rfl, show freshRemote.log = [] from rfl,
      storeWrite_fresh]
    rw [if_pos (by omega : (0 : Int) ≤ (bs.length : Int))]
    simp
  rw [isioFileRead_body idealIface _ _ bs.length (by omega) (by rw [hF]; simp)]
  rw [hF]
  show readBody idealIface _ _ bs.length = _
  rw [readBody_hit idealIface _ _ bs.length (by simp; omega) (by simp)]
  rw [show Int.toNat 0 = 0 from rfl, List.drop_zero, List.take_left' rfl]
  rw [show (0 : Int) + (bs.length : Int) = (bs.length : Int) from by omega,
    show (bs.length : Int) - (bs.length : Int) = 0 from by omega]

/-- Composition of the three steps of `roundTrip`. -/
theorem roundTrip_eq (bs : List Nat) (w s : Int × ISIO_FILE × RemoteObj)
    (rd : Int × List Nat × ISIO_FILE × RemoteObj)
    (hw : isioFileWrite idealIface freshFile freshRemote bs = w)
    (hs : isioFileSeek idealIface w.2.1 w.2.2 0 Whence.seekSet = s)
    (hr : isioFileRead idealIface s.2.1 s.2.2 bs.length = rd) :
    roundTrip bs = (rd.1, rd.2.1) := by
  simp only [roundTrip, hw, hs, hr]

/-- C2 (amended): the write-seek-read round trip at offset 0 on a fresh
handle returns the original bytes for every length from 1 up to the
initial buffer capacity 65536. -/
theorem c2_roundtrip_up_to_initial_capacity (bs : List Nat)
    (h1 : 1 ≤ bs.length) (h2 : bs.length ≤ ISIO_INITIAL_BUF_SIZE) :
    roundTrip bs = ((bs.length : Int), bs) := by
  have h2' : bs.length ≤ 65536 := h2
  exact roundTrip_eq bs _ _ _ (write_fits_fresh bs h1 h2')
    (seek0_after_write bs h1) (read_back_after_seek bs h1 h2')

/-- Witness for C2 (amended) at the one-byte input `[42]`. -/
theorem c2_roundtrip_witness : roundTrip [42] = (1, [42]) :=
  c2_roundtrip_up_to_initial_capacity [42] (by decide) (by decide)

/-- General overflow-grow write on a fresh handle: `n` bytes with
`65536 < n` and remainder `n - 65536` at most the cap.  The first 65536
bytes fill the buffer and are flushed; the remainder is cached in a
reallocated buffer whose `bufferSize` field is left stale at 65536. -/
theorem write_overflow_grow_fresh (n : Nat) (h1 : 131072 < n) (h2 : n ≤ 2162688) :
    isioFileWrite idealIface freshFile freshRemote (zeros n) =
      ((n : Int),
       { base_offset := 0, buf := zeros (2 * (n - 65536) + 8), bufferSize := 65536,
         cursor := ((n - 65536 : Nat) : Int), count := 0, dirty := true, l1descInx := 0 },
       { data := zeros 65536, pos := 65536, calls := 1, log := [zeros 65536] }) := by
  rw [isioFileWrite_overflow idealIface freshFile freshRemote (zeros n)
      (by rw [zeros_length]; omega)
      (by rw [zeros_length, freshFile_bufferSize, freshFile_cursor]
          rw [show ((65536 : Int) - 0) % 2 ^ 64 = 65536 from by norm_num]
          omega)
      (by rw [zeros_length, freshFile_bufferSize, freshFile_cursor]; push_cast; omega)]
  rw [freshFile_bufferSize, freshFile_cursor]
  rw [show (65536 : Int) - 0 = 65536 from by norm_num]
  rw [show writeAt freshFile.buf (Int.toNat 0) ((zeros n).take (Int.toNat 65536)) =
      zeros 65536 from by
    rw [freshFile_buf, show Int.toNat (65536 : Int) = 65536 from rfl,
      show Int.toNat (0 : Int) = 0 from rfl, zeros_take_le _ _ (by omega)]
    exact zeros_writeAt _ _ (by omega)]
  rw [freshFile_count, freshFile_base, freshFile_l1]
  rw [show (0 : Int) + 65536 = 65536 from by norm_num,
    show max ((0 : Int) - 65536) 0 = 0 from by norm_num]
  simp only []
  rw [flush_full_fresh idealIface rfl]
  rw [if_neg (by norm_num : ¬ (65536 : Int) < 0)]
  rw [writeOverflow_grow idealIface _ _ _ (zeros n) 65536
      (by rw [zeros_length]
          show ¬ (((ISIO_MAX_BUF_SIZE : Nat) : Int) < (n : Int) - 65536)
          rw [show ((ISIO_MAX_BUF_SIZE : Nat) : Int) = 2097152 from rfl]
          omega)
      (by rw [zeros_length]; show (65536 : Int) < (n : Int) - 65536; omega) rfl]
  simp only [writeTail, zeros_length]
  rw [show (2 * ((n : Int) - 65536) + 8).toNat = 2 * (n - 65536) + 8 from by omega]
  simp only [zeros_reallocBuf]
  rw [show Int.toNat (65536 : Int) = 65536 from rfl, zeros_drop]
  simp only [show (0 : Int).toNat = 0 from rfl]
  rw [zeros_writeAt _ _ (by omega)]
  rw [show (0 : Int) + ((n : Int) - 65536) = ((n - 65536 : Nat) : Int) from by omega,
    show max ((0 : Int) - ((n : Int) - 65536)) 0 = 0 from
      max_eq_right (by omega)]

/-- A `SEEK_SET` to 0 on a handle whose `base_offset` is (stale) 0 with
`cursor = K ≥ 1`, `count = 0` is resolved inside the buffer. -/
theorem seek0_stale_hit (bs : List Nat) (S : Int) (K : Nat) (d : Bool) (r : RemoteObj)
    (hS : 0 < S) (hK : 1 ≤ K) :
    isioFileSeek idealIface
      { base_offset := 0, buf := bs, bufferSize := S, cursor := (K : Int), count := 0,
        dirty := d, l1descInx := 0 } r 0 Whence.seekSet =
      (0,
       { base_offset := 0, buf := bs, bufferSize := S, cursor := 0, count := (K : Int),
         dirty := d, l1descInx := 0 }, r) := by
  rw [isioFileSeek_local idealIface _ _ 0 Whence.seekSet ((0 - 0) - (K : Int))
      (oicb_set_hit _ 0
        (by show ¬ (S ≤ 0 ∨ (K : Int) + 0 ≤ 0); omega)
        (by show (0 : Int) ≤ 0 ∧ (0 : Int) ≤ 0 ∧ (0 : Int) < 0 + (K : Int) + 0; omega))]
  rw [show (K : Int) + ((0 - 0) - (K : Int)) = 0 from by omega,
    show (0 : Int) - ((0 - 0) - (K : Int)) = (K : Int) from by omega]

/-- Flush of a handle whose occupied extent is the `C` cached bytes at
the start of an all-zero buffer, with the remote object's position at
its end: the extent is appended to the object. -/
theorem flush_zeros_at_end (B C D k : Nat) (L : List (List Nat)) (hCB : C ≤ B) :
    isioFlush idealIface
      { base_offset := 0, buf := zeros B, bufferSize := 65536, cursor := 0,
        count := (C : Int), dirty := true, l1descInx := 0 }
      { data := zeros D, pos := D, calls := k, log := L } =
      ((C : Int),
       { base_offset := 0, buf := zeros B, bufferSize := 65536, cursor := 0,
         count := (C : Int), dirty := false, l1descInx := 0 },
       { data := zeros (D + C), pos := D + C, calls := k + 1, log := L ++ [zeros C] }) := by
  rw [isioFlush_dirty _ _ _ rfl]
  rw [show ((0 : Int) + (C : Int)).toNat = C from by omega]
  rw [zeros_take_le _ _ hCB, idealIface_writeObj, zeros_length,
    storeWrite_zeros_append]
  rw [if_pos (by omega : (0 : Int) ≤ (C : Int))]

/-- Reading `n` bytes from a handle whose cache holds `C < n` stale
bytes while the remote position already sits at end-of-object: the `C`
cached bytes are flushed (appended remotely) and delivered, the refill
grows the buffer and then reads 0 bytes, so only `C` bytes come back. -/
theorem read_stale_window_trace (B C n D k : Nat) (L : List (List Nat))
    (hCB : C ≤ B) (hCn : C < n) (hg1 : 65536 < 2 * (n - C) + 8)
    (hg2 : 2 * (n - C) + 8 ≤ 2097152) (hC1 : 1 ≤ C) :
    isioFileRead idealIface
      { base_offset := 0, buf := zeros B, bufferSize := 65536, cursor := 0,
        count := (C : Int), dirty := true, l1descInx := 0 }
      { data := zeros D, pos := D, calls := k, log := L } n =
      ((C : Int), zeros C,
       { base_offset := ((D + C : Nat) : Int), buf := zeros (2 * (n - C) + 8),
         bufferSize := (2 * (n - C) + 8 : Nat), cursor := 0, count := 0,
         dirty := false, l1descInx := 0 },
       { data := zeros (D + C), pos := D + C, calls := k + 3, log := L ++ [zeros C] }) := by
  have hF := flush_zeros_at_end B C D k L hCB
  rw [isioFileRead_body idealIface _ _ n (by omega) (by rw [hF]; simp)]
  rw [hF]
  show readBody idealIface _ _ n = _
  rw [readBody_split idealIface _ _ n (by show (0 : Int) < (C : Int); omega)
      (by show ¬ ((n : Int) ≤ (C : Int)); omega)]
  show readRefill idealIface
      { base_offset := 0, buf := zeros B, bufferSize := 65536, cursor := 0, count := 0,
        dirty := false, l1descInx := 0 } _ _ _ _ = _
  rw [show Int.toNat (0 : Int) = 0 from rfl, List.drop_zero,
    show Int.toNat ((C : Nat) : Int) = C from by omega, zeros_take_le _ _ hCB]
  rw [readRefill_grow idealIface _ _ _ _ _ _
      (by show (65536 : Int) < 2 * ((n : Int) - (C : Int)) + 8; omega)
      (by show 2 * ((n : Int) - (C : Int)) + 8 ≤ ((ISIO_MAX_BUF_SIZE : Nat) : Int)
          rw [show ((ISIO_MAX_BUF_SIZE : Nat) : Int) = 2097152 from rfl]
          omega)
      rfl]
  rw [show (2 * ((n : Int) - (C : Int)) + 8) = ((2 * (n - C) + 8 : Nat) : Int) from by
    push_cast; omega]
  rw [show Int.toNat ((2 * (n - C) + 8 : Nat) : Int) = 2 * (n - C) + 8 from by omega]
  simp only [zeros_reallocBuf]
  rw [readDeliver]
  rw [isioFillBuffer_ideal _ _
      (by show ¬ ((2 * (n - C) + 8 : Nat) : Int) ≤ 0; push_cast; omega)]
  simp only []
  rw [if_neg (by norm_num : ¬ (0 : Int) < 0)]
  rw [show ((zeros (D + C)).drop (D + C)) = zeros 0 from by rw [zeros_drop, Nat.sub_self],
    zeros_take_ge _ _ (by omega), show zeros 0 = [] from rfl]
  simp only [List.length_nil, List.nil_append, List.drop_zero, Nat.cast_zero, Nat.add_zero]
  rw [show min (0 : Int) ((n : Int) - (C : Int)) = 0 from by
    apply min_eq_left; omega]
  rw [show Int.toNat (0 : Int) = 0 from rfl]
  simp only [List.take_zero, List.append_nil, List.drop_zero]
  rw [show (C : Int) + 0 = (C : Int) from by omega,
    show (0 : Int) + 0 = 0 from by omega, show (0 : Int) - 0 = 0 from by omega,
    show k + 1 + 2 = k + 3 from by omega]

/-- Overflow write on a fresh handle whose remainder fits the current
buffer (`65536 < n ≤ 131072`): the remainder is cached at the start of
the buffer after the flush; `base_offset` is not updated. -/
theorem write_overflow_small_fresh (n : Nat) (h1 : 65536 < n) (h2 : n ≤ 131072) :
    isioFileWrite idealIface freshFile freshRemote (zeros n) =
      ((n : Int),
       { base_offset := 0, buf := zeros 65536, bufferSize := 65536,
         cursor := ((n - 65536 : Nat) : Int), count := 0, dirty := true, l1descInx := 0 },
       { data := zeros 65536, pos := 65536, calls := 1, log := [zeros 65536] }) := by
  rw [isioFileWrite_overflow idealIface freshFile freshRemote (zeros n)
      (by rw [zeros_length]; omega)
      (by rw [zeros_length, freshFile_bufferSize, freshFile_cursor]
          rw [show ((65536 : Int) - 0) % 2 ^ 64 = 65536 from by norm_num]
          omega)
      (by rw [zeros_length, freshFile_bufferSize, freshFile_cursor]; push_cast; omega)]
  rw [freshFile_bufferSize, freshFile_cursor]
  rw [show (65536 : Int) - 0 = 65536 from by norm_num]
  rw [show writeAt freshFile.buf (Int.toNat 0) ((zeros n).take (Int.toNat 65536)) =
      zeros 65536 from by
    rw [freshFile_buf, show Int.toNat (65536 : Int) = 65536 from rfl,
      show Int.toNat (0 : Int) = 0 from rfl, zeros_take_le _ _ (by omega)]
    exact zeros_writeAt _ _ (by omega)]
  rw [freshFile_count, freshFile_base, freshFile_l1]
  rw [show (0 : Int) + 65536 = 65536 from by norm_num,
    show max ((0 : Int) - 65536) 0 = 0 from by norm_num]
  simp only []
  rw [flush_full_fresh idealIface rfl]
  rw [if_neg (by norm_num : ¬ (65536 : Int) < 0)]
  rw [writeOverflow_fits idealIface _ _ (zeros n) 65536
      (by rw [zeros_length]
          show ¬ (((ISIO_MAX_BUF_SIZE : Nat) : Int) < (n : Int) - 65536)
          rw [show ((ISIO_MAX_BUF_SIZE : Nat) : Int) = 2097152 from rfl]
          omega)
      (by rw [zeros_length]; show ¬ ((65536 : Int) < (n : Int) - 65536); omega)]
  simp only [writeTail, zeros_length]
  rw [show Int.toNat (65536 : Int) = 65536 from rfl, zeros_drop]
  simp only [show (0 : Int).toNat = 0 from rfl]
  rw [zeros_writeAt _ _ (by omega)]
  rw [show (0 : Int) + ((n : Int) - 65536) = ((n - 65536 : Nat) : Int) from by omega,
    show max ((0 : Int) - ((n : Int) - 65536)) 0 = 0 from
      max_eq_right (by omega)]

/-- Variant of `roundTrip_eq` with the read length given as a separate
literal, avoiding a deep length computation during elaboration. -/
theorem roundTrip_eq_len (bs : List Nat) (n : Nat) (hn : bs.length = n)
    (w s : Int × ISIO_FILE × RemoteObj)
    (rd : Int × List Nat × ISIO_FILE × RemoteObj)
    (hw : isioFileWrite idealIface freshFile freshRemote bs = w)
    (hs : isioFileSeek idealIface w.2.1 w.2.2 0 Whence.seekSet = s)
    (hr : isioFileRead idealIface s.2.1 s.2.2 n = rd) :
    roundTrip bs = (rd.1, rd.2.1) := by
  simp only [roundTrip, hw, hs, hn, hr]

/-- Round trip of 65537 all-zero bytes: the `SEEK_SET` to 0 is wrongly
served from the stale window, and the read returns the single cached
byte, not the 65537 written bytes. -/
theorem roundTrip_65537 : roundTrip (zeros 65537) = (1, zeros 1) :=
  roundTrip_eq_len (zeros 65537) 65537 (zeros_length 65537) _ _ _
    (write_overflow_small_fresh 65537 (by omega) (by omega))
    (seek0_stale_hit (zeros 65536) 65536 1 true _ (by omega) (by omega))
    (read_stale_window_trace 65536 1 65537 65536 1 [zeros 65536]
      (by omega) (by omega) (by omega) (by omega) (by omega))

/-- Round trip of 2097153 all-zero bytes (one more than the cap): the
remainder 2031617 is below the cap, so the write takes the grow path,
not the bypass; the read then returns only 2031617 bytes. -/
theorem roundTrip_2097153 : roundTrip (zeros 2097153) = (2031617, zeros 2031617) :=
  roundTrip_eq_len (zeros 2097153) 2097153 (zeros_length 2097153) _ _ _
    (write_overflow_grow_fresh 2097153 (by omega) (by omega))
    (seek0_stale_hit (zeros 4063242) 65536 2031617 true _ (by omega) (by omega))
    (read_stale_window_trace 4063242 2031617 2097153 65536 1 [zeros 65536]
      (by omega) (by omega) (by omega) (by omega) (by omega))

/-- C2 (counterexample): the round trip fails for `N = 65537` (one byte
more than the initial capacity) and for `N = 2097153` (one byte more
than the cap): the read returns 1 resp. 2031617 bytes instead of `N`. -/
theorem c2_roundtrip_counterexample :
    roundTrip (zeros 65537) = (1, zeros 1) ∧
    roundTrip (zeros 2097153) = (2031617, zeros 2031617) ∧
    roundTrip (zeros 65537) ≠ (((zeros 65537).length : Int), zeros 65537) ∧
    roundTrip (zeros 2097153) ≠ (((zeros 2097153).length : Int), zeros 2097153) := by
  refine ⟨roundTrip_65537, roundTrip_2097153, ?_, ?_⟩
  · intro h
    rw [roundTrip_65537] at h
    have h1 : (1 : Int) = ((zeros 65537).length : Int) := congrArg Prod.fst h
    rw [zeros_length] at h1
    omega
  · intro h
    rw [roundTrip_2097153] at h
    have h1 : (2031617 : Int) = ((zeros 2097153).length : Int) := congrArg Prod.fst h
    rw [zeros_length] at h1
    omega

/-! ### C4: the bypass write path -/

set_option maxRecDepth 8000 in
/-- Evaluation of a 2162689-byte write on a fresh handle: the 2097153
byte remainder exceeds the cap, so after the flush it is written
directly to the remote object; `isioFileWrite` returns only the
`rcDataObjWrite` status 2097153 (the remainder), not the 2162689 bytes
actually written. -/
theorem write_bypass_trace :
    isioFileWrite idealIface freshFile freshRemote (zeros 2162689) =
      (2097153,
       { base_offset := 2162689, buf := zeros 65536, bufferSize := 65536, cursor := 0,
         count := 0, dirty := false, l1descInx := 0 },
       { data := zeros 2162689, pos := 2162689, calls := 2,
         log := [zeros 65536, zeros 2097153] }) := by
  rw [isioFileWrite_overflow idealIface freshFile freshRemote (zeros 2162689)
      (by rw [zeros_length]; omega)
      (by rw [zeros_length, freshFile_bufferSize, freshFile_cursor]
          rw [show ((65536 : Int) - 0) % 2 ^ 64 = 65536 from by norm_num]
          norm_num)
      (by rw [zeros_length, freshFile_bufferSize, freshFile_cursor]; norm_num)]
  rw [freshFile_bufferSize, freshFile_cursor]
  rw [show (65536 : Int) - 0 = 65536 from by norm_num]
  rw [show writeAt freshFile.buf (Int.toNat 0) ((zeros 2162689).take (Int.toNat 65536)) =
      zeros 65536 from by
    rw [freshFile_buf, show Int.toNat (65536 : Int) = 65536 from rfl,
      show Int.toNat (0 : Int) = 0 from rfl, zeros_take_le _ _ (by omega)]
    exact zeros_writeAt _ _ (by omega)]
  rw [freshFile_count, freshFile_base, freshFile_l1]
  rw [show (0 : Int) + 65536 = 65536 from by norm_num,
    show max ((0 : Int) - 65536) 0 = 0 from by norm_num]
  simp only []
  rw [flush_full_fresh idealIface rfl]
  rw [if_neg (by norm_num : ¬ (65536 : Int) < 0)]
  rw [writeOverflow_bypass idealIface _ _ (zeros 2162689) 65536
      (by rw [zeros_length]
          show ((ISIO_MAX_BUF_SIZE : Nat) : Int) < ((2162689 : Nat) : Int) - 65536
          rw [show ((ISIO_MAX_BUF_SIZE : Nat) : Int) = 2097152 from rfl]
          norm_num)]
  rw [zeros_length]
  rw [show Int.toNat (65536 : Int) = 65536 from rfl, zeros_drop,
    show (2162689 - 65536 : Nat) = 2097153 from by norm_num]
  rw [idealIface_writeObj, zeros_length, storeWrite_zeros_append]
  simp only []
  rw [if_neg (by
    show ¬ (((2097153 : Nat) : Int) < 0)
    norm_num)]
  rw [show (0 : Int) + 65536 + (((2162689 : Nat) : Int) - 65536) = 2162689 from by
    norm_num]
  norm_num

/-- C4: on the bypass path `isioFileWrite` returns only the remote
write status for the remainder (2097153), not the total byte count
(2162689) that its own comment claims; `base_offset` does match the
remote position at this input. -/
theorem c4_bypass_write_returns_remainder_only :
    (isioFileWrite idealIface freshFile freshRemote (zeros 2162689)).1 = 2097153 ∧
    ((zeros 2162689).length : Int) = 2162689 ∧
    (isioFileWrite idealIface freshFile freshRemote (zeros 2162689)).1 ≠
      ((zeros 2162689).length : Int) ∧
    (isioFileWrite idealIface freshFile freshRemote (zeros 2162689)).2.1.base_offset =
      2162689 ∧
    ((isioFileWrite idealIface freshFile freshRemote (zeros 2162689)).2.2.pos : Int) =
      2162689 := by
  refine ⟨?_, ?_, ?_, ?_, ?_⟩
  · rw [write_bypass_trace]
  · rw [zeros_length]; norm_num
  · rw [write_bypass_trace, zeros_length]
    intro h
    norm_num at h
  · rw [write_bypass_trace]
  · rw [write_bypass_trace]; norm_num

/-! ### C6: allocation failure -/

/-- The 131073-byte overflow write when the buffer reallocation fails:
the source returns 0 (isio.c:590), not a negative error, and leaves the
handle with a NULL buffer. -/
theorem write_grow_allocFail_trace :
    isioFileWrite allocFailIface freshFile freshRemote (zeros 131073) =
      (0,
       { base_offset := 0, buf := [], bufferSize := 65536, cursor := 0,
         count := 0, dirty := false, l1descInx := 0 },
       { data := zeros 65536, pos := 65536, calls := 1, log := [zeros 65536] }) := by
  rw [isioFileWrite_overflow allocFailIface freshFile freshRemote (zeros 131073)
      (by rw [zeros_length]; norm_num)
      (by rw [zeros_length, freshFile_bufferSize, freshFile_cursor]; norm_num)
      (by rw [zeros_length, freshFile_bufferSize, freshFile_cursor]; norm_num)]
  rw [freshFile_bufferSize, freshFile_cursor]
  rw [show (65536 : Int) - 0 = 65536 from by norm_num]
  rw [show writeAt freshFile.buf (Int.toNat 0) ((zeros 131073).take (Int.toNat 65536)) =
      zeros 65536 from by
    rw [freshFile_buf, show Int.toNat (65536 : Int) = 65536 from rfl,
      show Int.toNat (0 : Int) = 0 from rfl, zeros_take_le _ _ (by norm_num)]
    exact zeros_writeAt _ _ (by norm_num)]
  rw [freshFile_count, freshFile_base, freshFile_l1]
  rw [show (0 : Int) + 65536 = 65536 from by norm_num,
    show max ((0 : Int) - 65536) 0 = 0 from by norm_num]
  simp only []
  rw [flush_full_fresh allocFailIface rfl]
  rw [if_neg (by norm_num : ¬ (65536 : Int) < 0)]
  rw [writeOverflow_growFail allocFailIface _ _ _ (zeros 131073) 65536
      (by rw [zeros_length]
          show ¬ (((ISIO_MAX_BUF_SIZE : Nat) : Int) < ((131073 : Nat) : Int) - 65536)
          rw [show ((ISIO_MAX_BUF_SIZE : Nat) : Int) = 2097152 from rfl]
          norm_num)
      (by rw [zeros_length]; norm_num) rfl]

/-- C6 (counterexample): when the reallocation in the write-overflow
grow path fails, `isioFileWrite` returns 0 — not a distinguished
negative error value. -/
theorem c6_write_alloc_failure_returns_zero :
    (isioFileWrite allocFailIface freshFile freshRemote (zeros 131073)).1 = 0 ∧
    ¬ ((isioFileWrite allocFailIface freshFile freshRemote (zeros 131073)).1 < 0) := by
  rw [write_grow_allocFail_trace]
  exact ⟨rfl, by norm_num⟩

/-- C6 (amended): an allocation failure aborts the operation, but the
two paths signal it differently: the read refill grow path returns the
negative error -99 (isio.c:408), while the write overflow grow path
returns 0 (isio.c:590). -/
theorem c6_alloc_failure_statuses (f : ISIO_FILE) (r : RemoteObj) (n : Nat)
    (hd : f.dirty = false) (hc : f.count = 0)
    (h1 : f.bufferSize < 2 * (n : Int) + 8)
    (h2 : 2 * (n : Int) + 8 ≤ ((ISIO_MAX_BUF_SIZE : Nat) : Int))
    (hn : n ≠ 0) :
    (isioFileRead allocFailIface f r n).1 = -99 ∧
    (isioFileWrite allocFailIface freshFile freshRemote (zeros 131073)).1 = 0 := by
  constructor
  · rw [isioFileRead_body allocFailIface f r n hn
      (by rw [isioFlush_clean _ _ _ hd]; norm_num)]
    rw [isioFlush_clean _ _ _ hd]
    show (readBody allocFailIface f r n).1 = -99
    rw [readBody_empty allocFailIface f r n (by omega)]
    rw [readRefill_growFail allocFailIface f r r [] 0 (n : Int)
      (by omega) (by omega) rfl]
  · rw [write_grow_allocFail_trace]

/-- Witness for C6 (amended): a 40000-byte read on a fresh clean handle
whose refill grow allocation fails returns -99; the failing overflow
write returns 0. -/
theorem c6_alloc_failure_witness :
    (isioFileRead allocFailIface freshFile freshRemote 40000).1 = -99 ∧
    (isioFileWrite allocFailIface freshFile freshRemote (zeros 131073)).1 = 0 :=
  c6_alloc_failure_statuses freshFile freshRemote 40000 rfl rfl
    (by rw [freshFile_bufferSize]; norm_num)
    (by rw [show ((ISIO_MAX_BUF_SIZE : Nat) : Int) = 2097152 from rfl]; norm_num)
    (by norm_num)

/-! ### C8: the bypass-read frame property -/

set_option maxRecDepth 8000 in
/-- A 1048573-byte read on a fresh handle (refill size 2097154 exceeds
the cap, so the cache is bypassed) whose remote read fails with -5: the
source returns before restoring the saved buffer, leaving the handle
pointing at the caller's buffer with `bufferSize = 1048573`. -/
theorem bypass_read_fail_trace :
    isioFileRead (readFailIface (-5)) freshFile freshRemote 1048573 =
      (-5, [],
       { base_offset := 0, buf := zeros 1048573, bufferSize := ((1048573 : Nat) : Int),
         cursor := 0, count := 0, dirty := false, l1descInx := 0 },
       { data := [], pos := 0, calls := 2, log := [] }) := by
  rw [isioFileRead_body (readFailIface (-5)) freshFile freshRemote 1048573 (by norm_num)
      (by rw [isioFlush_clean _ _ _ rfl]; norm_num)]
  rw [isioFlush_clean _ _ _ rfl]
  show readBody (readFailIface (-5)) freshFile freshRemote 1048573 = _
  rw [readBody_empty _ _ _ _ (by rw [freshFile_count]; omega)]
  rw [readRefill_bypass _ _ _ _ _ _
      (by rw [freshFile_bufferSize]; norm_num)
      (by rw [show ((ISIO_MAX_BUF_SIZE : Nat) : Int) = 2097152 from rfl]; norm_num)]
  rw [readBypass]
  rw [show Int.toNat ((1048573 : Nat) : Int) = 1048573 from rfl, replicate_eq_zeros]
  rw [isioFillBuffer_readFail _ _ _
      (by show ¬ ((1048573 : Nat) : Int) ≤ 0; norm_num) (by norm_num)]
  simp only []
  rw [if_pos (by norm_num : (-5 : Int) < 0)]
  rw [freshFile_count, freshFile_l1, freshFile_dirty,
    show freshRemote.pos = 0 from rfl, show freshRemote.calls = 0 from rfl,
    show freshRemote.data = [] from rfl, show freshRemote.log = [] from rfl]
  norm_num

/-- C8: on the bypass-read path with a failing remote read, the cache's
buffer pointer and capacity are NOT restored: the handle comes back
with `bufferSize = 1048573` (the caller's buffer) instead of its own
65536-byte buffer — the saved attributes are only restored on the
success path. -/
theorem c8_bypass_read_error_skips_restore :
    (isioFileRead (readFailIface (-5)) freshFile freshRemote 1048573).1 = -5 ∧
    (isioFileRead (readFailIface (-5)) freshFile freshRemote 1048573).2.2.1.bufferSize =
      1048573 ∧
    freshFile.bufferSize = 65536 ∧
    (isioFileRead (readFailIface (-5)) freshFile freshRemote 1048573).2.2.1.bufferSize ≠
      freshFile.bufferSize := by
  rw [bypass_read_fail_trace, freshFile_bufferSize]
  refine ⟨rfl, by norm_num, rfl, by norm_num⟩

/-! ### C7: the handle table -/

/-- C7: with all 20 `_cacheInfo` slots occupied, a further `irods:` open
fails (`add_to_map` returns NULL) and the table is unchanged; closing a
mapped stream succeeds (status 0) but returns the table UNCHANGED —
`irodsfclose` never clears the slot — so the failing open above is also
what happens after the close. -/
theorem c7_close_does_not_release_table_slot :
    (add_to_map (List.replicate 20 (some freshFile)) (some freshFile)).1 = none ∧
    (add_to_map (List.replicate 20 (some freshFile)) (some freshFile)).2 =
      List.replicate 20 (some freshFile) ∧
    irodsfclose_remote idealIface (List.replicate 20 (some freshFile)) freshRemote 1 =
      some (0, List.replicate 20 (some freshFile),
        { data := [], pos := 0, calls := 1, log := [] }) :=
  ⟨rfl, rfl, rfl⟩

/-! ### C9: flush accepts a short remote write -/

/-- C9: `isioFlush` clears the dirty flag on ANY non-negative remote
write status `k`, even one strictly smaller than the transmitted
occupied extent `cursor + count`, and a subsequent flush is then a
no-op (no further remote call), so the unwritten tail is never
retransmitted. -/
theorem c9_short_flush_clears_dirty (f : ISIO_FILE) (k : Int) (n : Nat)
    (hd : f.dirty = true) (h0 : 0 ≤ k) (hshort : k < f.cursor + f.count) :
    isioFlush (constWriteIface k) f n = (k, { f with dirty := false }, n + 1) ∧
    isioFlush (constWriteIface k) { f with dirty := false } (n + 1) =
      (0, { f with dirty := false }, n + 1) := by
  constructor
  · rw [isioFlush_dirty _ _ _ hd, constWriteIface_writeObj, if_pos h0]
  · exact isioFlush_clean _ _ _ rfl

/-- Witness for C9: a dirty handle with occupied extent 3 flushed by a
remote that reports only 1 byte written. -/
theorem c9_short_flush_witness :
    isioFlush (constWriteIface 1)
      { base_offset := 0, buf := zeros 4, bufferSize := 4, cursor := 2, count := 1,
        dirty := true, l1descInx := 0 } 0 =
      (1,
       { base_offset := 0, buf := zeros 4, bufferSize := 4, cursor := 2, count := 1,
         dirty := false, l1descInx := 0 }, 1) ∧
    isioFlush (constWriteIface 1)
      { base_offset := 0, buf := zeros 4, bufferSize := 4, cursor := 2, count := 1,
        dirty := false, l1descInx := 0 } 1 =
      (0,
       { base_offset := 0, buf := zeros 4, bufferSize := 4, cursor := 2, count := 1,
         dirty := false, l1descInx := 0 }, 1) :=
  c9_short_flush_clears_dirty
    { base_offset := 0, buf := zeros 4, bufferSize := 4, cursor := 2, count := 1,
      dirty := true, l1descInx := 0 } 1 0 rfl (by norm_num)
    (by show (1 : Int) < 2 + 1; norm_num)

/-! ### C5: the read path flushes dirty state first — except length 0 -/

/-- C5 (counterexample): a zero-length read on a dirty handle returns
immediately (isio.c:363-364 precedes the flush), leaving the dirty flag
set and performing no remote write. -/
theorem c5_zero_length_read_skips_flush :
    isioFileRead idealIface
      { base_offset := 0, buf := zeros 4, bufferSize := 4, cursor := 1, count := 0,
        dirty := true, l1descInx := 0 } freshRemote 0 =
      (0, [],
       { base_offset := 0, buf := zeros 4, bufferSize := 4, cursor := 1, count := 0,
         dirty := true, l1descInx := 0 }, freshRemote) ∧
    freshRemote.log = [] ∧ freshRemote.calls = 0 :=
  ⟨isioFileRead_zero _ _ _, rfl, rfl⟩

theorem readDeliver_ideal_log_dirty (f3 : ISIO_FILE) (r : RemoteObj)
    (p : List Nat) (rc rq : Int) :
    (readDeliver idealIface f3 r p rc rq).2.2.2.log = r.log ∧
    (readDeliver idealIface f3 r p rc rq).2.2.1.dirty = f3.dirty := by
  rw [readDeliver]
  by_cases hb : f3.bufferSize ≤ 0
  · rw [isioFillBuffer_bad _ _ _ hb]
    simp
  · rw [isioFillBuffer_ideal _ _ hb]
    simp

theorem readBypass_ideal_log_dirty (f2 : ISIO_FILE) (r : RemoteObj)
    (p : List Nat) (rc rq : Int) :
    (readBypass idealIface f2 r p rc rq).2.2.2.log = r.log ∧
    (readBypass idealIface f2 r p rc rq).2.2.1.dirty = f2.dirty := by
  rw [readBypass]
  by_cases hb : rq ≤ 0
  · rw [isioFillBuffer_bad _ _ _ hb]
    simp
  · rw [isioFillBuffer_ideal _ _ hb]
    simp

theorem readRefill_ideal_log_dirty (f2 : ISIO_FILE) (r : RemoteObj)
    (p : List Nat) (rc rq : Int) :
    (readRefill idealIface f2 r p rc rq).2.2.2.log = r.log ∧
    (readRefill idealIface f2 r p rc rq).2.2.1.dirty = f2.dirty := by
  rw [readRefill]
  by_cases h1 : f2.bufferSize < 2 * rq + 8
  · by_cases h2 : 2 * rq + 8 ≤ (ISIO_MAX_BUF_SIZE : Int)
    · simp only [if_pos h1, if_pos h2, idealIface_allocOk]
      rw [if_neg (by norm_num : ¬ (true = false))]
      exact readDeliver_ideal_log_dirty _ _ _ _ _
    · simp only [if_pos h1, if_neg h2]
      exact readBypass_ideal_log_dirty _ _ _ _ _
  · simp only [if_neg h1]
    exact readDeliver_ideal_log_dirty _ _ _ _ _

theorem readBody_ideal_log_dirty (f1 : ISIO_FILE) (r1 : RemoteObj) (n : Nat) :
    (readBody idealIface f1 r1 n).2.2.2.log = r1.log ∧
    (readBody idealIface f1 r1 n).2.2.1.dirty = f1.dirty := by
  rw [readBody]
  by_cases h1 : 0 < f1.count ∧ (n : Int) ≤ f1.count
  · simp [h1]
  · simp only [if_neg h1]
    by_cases hc : 0 < f1.count
    · simp only [if_pos hc]
      exact readRefill_ideal_log_dirty _ _ _ _ _
    · simp only [if_neg hc]
      exact readRefill_ideal_log_dirty _ _ _ _ _

/-- C5 (amended): every read of requested length at least 1 on a dirty
handle flushes the buffer first: afterwards exactly one remote write —
the occupied extent `cursor + count` bytes from the start of the
buffer — has been appended to the write log, and the handle is clean. -/
theorem c5_read_flushes_dirty_before_delivery (f : ISIO_FILE) (r : RemoteObj) (n : Nat)
    (hd : f.dirty = true) (hn : n ≠ 0) :
    (isioFileRead idealIface f r n).2.2.2.log =
      r.log ++ [f.buf.take (f.cursor + f.count).toNat] ∧
    (isioFileRead idealIface f r n).2.2.1.dirty = false := by
  have hF : isioFlush idealIface f r =
      (((f.buf.take (f.cursor + f.count).toNat).length : Int),
       { f with dirty := false },
       { r with data := storeWrite r.data r.pos (f.buf.take (f.cursor + f.count).toNat)
                pos := r.pos + (f.buf.take (f.cursor + f.count).toNat).length
                calls := r.calls + 1
                log := r.log ++ [f.buf.take (f.cursor + f.count).toNat] }) := by
    rw [isioFlush_dirty _ _ _ hd, idealIface_writeObj,
      if_pos (Int.natCast_nonneg _)]
  rw [isioFileRead_body idealIface f r n hn (by rw [hF]; simp)]
  rw [hF]
  have h := readBody_ideal_log_dirty
    { f with dirty := false }
    { r with data := storeWrite r.data r.pos (f.buf.take (f.cursor + f.count).toNat)
             pos := r.pos + (f.buf.take (f.cursor + f.count).toNat).length
             calls := r.calls + 1
             log := r.log ++ [f.buf.take (f.cursor + f.count).toNat] } n
  exact ⟨h.1, h.2⟩

/-- Witness for C5 (amended): a one-byte read on a dirty one-byte
handle logs the flush of that byte and clears the flag. -/
theorem c5_read_flush_witness :
    (isioFileRead idealIface
      { base_offset := 0, buf := zeros 4, bufferSize := 4, cursor := 1, count := 0,
        dirty := true, l1descInx := 0 } freshRemote 1).2.2.2.log =
      freshRemote.log ++ [(zeros 4).take 1] ∧
    (isioFileRead idealIface
      { base_offset := 0, buf := zeros 4, bufferSize := 4, cursor := 1, count := 0,
        dirty := true, l1descInx := 0 } freshRemote 1).2.2.1.dirty = false :=
  c5_read_flushes_dirty_before_delivery
    { base_offset := 0, buf := zeros 4, bufferSize := 4, cursor := 1, count := 0,
      dirty := true, l1descInx := 0 } freshRemote 1 rfl (by norm_num)

/-! ### C10: negative statuses divided by the unsigned itemsize -/

/-- C10 (counterexample): with `itemsize = 2^64 - 1`, a read whose
underlying cached read fails with -2 makes `irodsfread` return 0 items
— an error-looking count, not a huge positive one, contradicting the
claim for this itemsize. -/
theorem c10_error_surfaces_as_zero_items :
    irodsfread (constWriteIface (-2))
      [some { base_offset := 0, buf := zeros 4, bufferSize := 4, cursor := 1, count := 0,
              dirty := true, l1descInx := 0 }] 0 1 (2 ^ 64 - 1) 1 =
      some (0, [],
        { base_offset := 0, buf := zeros 4, bufferSize := 4, cursor := 1, count := 0,
          dirty := true, l1descInx := 0 }, 1) := rfl

/-- Write of 65537 bytes on a fresh handle whose flush fails with the
negative status `st`: `isioFileWrite` surfaces `st`, leaving the first
65536 bytes cached and dirty. -/
theorem write_overflow_flushFail_trace (st : Int) (n : Nat) (hst : st < 0) :
    isioFileWrite (constWriteIface st) freshFile n (zeros 65537) =
      (st,
       { base_offset := 0, buf := zeros 65536, bufferSize := 65536, cursor := 65536,
         count := 0, dirty := true, l1descInx := 0 }, n + 1) := by
  rw [isioFileWrite_overflow (constWriteIface st) freshFile n (zeros 65537)
      (by rw [zeros_length]; norm_num)
      (by rw [zeros_length, freshFile_bufferSize, freshFile_cursor]; norm_num)
      (by rw [zeros_length, freshFile_bufferSize, freshFile_cursor]; norm_num)]
  rw [freshFile_bufferSize, freshFile_cursor]
  rw [show (65536 : Int) - 0 = 65536 from by norm_num]
  rw [show writeAt freshFile.buf (Int.toNat 0) ((zeros 65537).take (Int.toNat 65536)) =
      zeros 65536 from by
    rw [freshFile_buf, show Int.toNat (65536 : Int) = 65536 from rfl,
      show Int.toNat (0 : Int) = 0 from rfl, zeros_take_le _ _ (by norm_num)]
    exact zeros_writeAt _ _ (by norm_num)]
  rw [freshFile_count, freshFile_base, freshFile_l1]
  rw [show (0 : Int) + 65536 = 65536 from by norm_num,
    show max ((0 : Int) - 65536) 0 = 0 from by norm_num]
  simp only []
  rw [isioFlush_dirty _ _ _ rfl, constWriteIface_writeObj,
    if_neg (by omega : ¬ (0 : Int) ≤ st)]
  rw [if_pos hst]

/-- C10 (amended): when the underlying cached read or write fails with
the negative status `st`, the `int` status is converted to `size_t` and
divided by `itemsize`, so the caller receives `(2^64 + st) / itemsize`
items: a huge positive count whenever `itemsize ≤ 2^64 + st` (all
realistic item sizes), but 0 — indistinguishable from "nothing
transferred" — once `itemsize` exceeds `2^64 + st`. -/
theorem c10_negative_status_division (st : Int) (itemsize nitems : Nat)
    (f : ISIO_FILE) (n : Nat)
    (hst : st < 0) (hlb : -(2 ^ 63) ≤ st) (hd : f.dirty = true)
    (hbig : 65537 ≤ itemsize * nitems % 2 ^ 64) (hi : 1 ≤ itemsize) :
    irodsfread (constWriteIface st) [some f] n 1 itemsize nitems =
      some ((2 ^ 64 + st).toNat / itemsize, [], f, n + 1) ∧
    irodsfwrite (constWriteIface st) [some freshFile] n 1 (zeros 65537) itemsize nitems =
      some ((2 ^ 64 + st).toNat / itemsize,
        { base_offset := 0, buf := zeros 65536, bufferSize := 65536, cursor := 65536,
          count := 0, dirty := true, l1descInx := 0 }, n + 1) ∧
    (itemsize ≤ (2 ^ 64 + st).toNat → 1 ≤ (2 ^ 64 + st).toNat / itemsize) ∧
    ((2 ^ 64 + st).toNat < itemsize → (2 ^ 64 + st).toNat / itemsize = 0) := by
  have hFl : isioFlush (constWriteIface st) f n = (st, f, n + 1) := by
    rw [isioFlush_dirty _ _ _ hd, constWriteIface_writeObj,
      if_neg (by omega : ¬ (0 : Int) ≤ st)]
  have hmod : st % 2 ^ 64 = 2 ^ 64 + st := by omega
  refine ⟨?_, ?_, ?_, ?_⟩
  · have hRead : isioFileRead (constWriteIface st) f n (itemsize * nitems % 2 ^ 64) =
        (st, [], f, n + 1) := by
      rw [isioFileRead_flushErr _ _ _ _ (by omega) (by rw [hFl]; exact hst), hFl]
    simp only [irodsfread, show is_in_map [some f] 1 = some f from rfl, hRead, hmod]
  · have hWrite := write_overflow_flushFail_trace st n hst
    simp only [irodsfwrite, show is_in_map [some freshFile] 1 = some freshFile from rfl,
      zeros_take_ge 65537 (itemsize * nitems % 2 ^ 64) (by omega), hWrite, hmod]
  · intro h
    exact (Nat.one_le_div_iff (by omega)).mpr h
  · intro h
    exact Nat.div_eq_of_lt h

/-- Witness for C10 (amended) at `st = -2`, `itemsize = 8`,
`nitems = 8193`. -/
theorem c10_negative_status_witness :
    irodsfread (constWriteIface (-2))
      [some { base_offset := 0, buf := zeros 4, bufferSize := 4, cursor := 1, count := 0,
              dirty := true, l1descInx := 0 }] 0 1 8 8193 =
      some ((2 ^ 64 + (-2 : Int)).toNat / 8, [],
        { base_offset := 0, buf := zeros 4, bufferSize := 4, cursor := 1, count := 0,
          dirty := true, l1descInx := 0 }, 1) ∧
    irodsfwrite (constWriteIface (-2)) [some freshFile] 0 1 (zeros 65537) 8 8193 =
      some ((2 ^ 64 + (-2 : Int)).toNat / 8,
        { base_offset := 0, buf := zeros 65536, bufferSize := 65536, cursor := 65536,
          count := 0, dirty := true, l1descInx := 0 }, 1) ∧
    (8 ≤ (2 ^ 64 + (-2 : Int)).toNat → 1 ≤ (2 ^ 64 + (-2 : Int)).toNat / 8) ∧
    ((2 ^ 64 + (-2 : Int)).toNat < 8 → (2 ^ 64 + (-2 : Int)).toNat / 8 = 0) :=
  c10_negative_status_division (-2) 8 8193
    { base_offset := 0, buf := zeros 4, bufferSize := 4, cursor := 1, count := 0,
      dirty := true, l1descInx := 0 } 0
    (by norm_num) (by norm_num) rfl (by norm_num) (by norm_num)

/-! ### C3: remote-call counts -/

/-- Evaluation of a dirty flush against the ideal collaborator. -/
theorem isioFlush_ideal_eval (f : ISIO_FILE) (r : RemoteObj) (hd : f.dirty = true) :
    isioFlush idealIface f r =
      (((f.buf.take (f.cursor + f.count).toNat).length : Int),
       { f with dirty := false },
       { r with data := storeWrite r.data r.pos (f.buf.take (f.cursor + f.count).toNat)
                pos := r.pos + (f.buf.take (f.cursor + f.count).toNat).length
                calls := r.calls + 1
                log := r.log ++ [f.buf.take (f.cursor + f.count).toNat] }) := by
  rw [isioFlush_dirty _ _ _ hd, idealIface_writeObj, if_pos (Int.natCast_nonneg _)]

theorem idealIface_lseek_calls (r : RemoteObj) (off : Int) (wh : Whence) :
    (idealIface.lseekObj r off wh).2.2.calls = r.calls + 1 := by
  show (idealIface.lseekObj r off wh).2.2.calls = r.calls + 1
  unfold idealIface
  simp only []
  split <;> rfl

theorem readDeliver_ideal_calls (f3 : ISIO_FILE) (r : RemoteObj) (p : List Nat)
    (rc rq : Int) (hb : ¬ f3.bufferSize ≤ 0) :
    (readDeliver idealIface f3 r p rc rq).2.2.2.calls = r.calls + 2 := by
  rw [readDeliver, isioFillBuffer_ideal _ _ hb]
  simp

theorem readBypass_ideal_calls (f2 : ISIO_FILE) (r : RemoteObj) (p : List Nat)
    (rc rq : Int) (hq : 0 < rq) :
    (readBypass idealIface f2 r p rc rq).2.2.2.calls = r.calls + 2 := by
  rw [readBypass, isioFillBuffer_ideal _ _ (by show ¬ rq ≤ 0; omega)]
  simp

theorem readRefill_ideal_calls (f2 : ISIO_FILE) (r : RemoteObj) (p : List Nat)
    (rc rq : Int) (hq : 0 < rq) (hb : 0 < f2.bufferSize) :
    (readRefill idealIface f2 r p rc rq).2.2.2.calls = r.calls + 2 := by
  rw [readRefill]
  by_cases h1 : f2.bufferSize < 2 * rq + 8
  · by_cases h2 : 2 * rq + 8 ≤ (ISIO_MAX_BUF_SIZE : Int)
    · simp only [if_pos h1, if_pos h2, idealIface_allocOk]
      rw [if_neg (by norm_num : ¬ (true = false))]
      exact readDeliver_ideal_calls _ _ _ _ _ (by show ¬ (2 * rq + 8 ≤ 0); omega)
    · simp only [if_pos h1, if_neg h2]
      exact readBypass_ideal_calls _ _ _ _ _ hq
  · simp only [if_neg h1]
    exact readDeliver_ideal_calls _ _ _ _ _ (by show ¬ f2.bufferSize ≤ 0; omega)

theorem writeOverflow_ideal_calls_cached (f2 : ISIO_FILE) (r1 : RemoteObj)
    (src : List Nat) (w : Int)
    (h : ¬ ((ISIO_MAX_BUF_SIZE : Int) < (src.length : Int) - w)) :
    (writeOverflow idealIface f2 r1 src w).2.2.calls = r1.calls := by
  rw [writeOverflow]
  by_cases hg : f2.bufferSize < (src.length : Int) - w
  · simp only [if_neg h, if_pos hg, idealIface_allocOk]
    rw [if_neg (by norm_num : ¬ (true = false))]
    rfl
  · simp only [if_neg h, if_neg hg]
    rfl

theorem writeOverflow_ideal_calls_bypass (f2 : ISIO_FILE) (r1 : RemoteObj)
    (src : List Nat) (w : Int)
    (h : (ISIO_MAX_BUF_SIZE : Int) < (src.length : Int) - w) :
    (writeOverflow idealIface f2 r1 src w).2.2.calls = r1.calls + 1 := by
  rw [writeOverflow]
  simp only [if_pos h, idealIface_writeObj]
  rw [if_neg (by simp : ¬ (((src.drop w.toNat).length : Int) < 0))]

/-- Remote-call count of an overflowing write against the ideal
collaborator: 1 (the flush) when the remainder is cached, 2 (flush +
direct remote write) when the remainder exceeds the cap. -/
theorem isioFileWrite_overflow_calls (f : ISIO_FILE) (r : RemoteObj) (src : List Nat)
    (h0 : src.length ≠ 0)
    (h1 : ¬ ((src.length : Int) ≤ (f.bufferSize - f.cursor) % 2 ^ 64))
    (h2 : f.bufferSize - f.cursor ≠ (src.length : Int)) :
    (isioFileWrite idealIface f r src).2.2.calls =
      r.calls + (if (ISIO_MAX_BUF_SIZE : Int) <
        (src.length : Int) - (f.bufferSize - f.cursor) then 2 else 1) := by
  rw [isioFileWrite_overflow idealIface f r src h0 h1 h2]
  simp only []
  rw [isioFlush_ideal_eval _ _ rfl]
  simp only []
  split
  · next hlt =>
    exact absurd hlt (by simp)
  · next hge =>
    by_cases hM : (ISIO_MAX_BUF_SIZE : Int) <
        (src.length : Int) - (f.bufferSize - f.cursor)
    · rw [writeOverflow_ideal_calls_bypass _ _ _ _ hM, if_pos hM]
    · rw [writeOverflow_ideal_calls_cached _ _ _ _ hM, if_neg hM]

/-- An out-of-window seek against the ideal collaborator performs the
remote lseek plus the remote position query on top of whatever the
initial flush did. -/
theorem isioFileSeek_remote_ideal_calls (f : ISIO_FILE) (r : RemoteObj)
    (off : Int) (wh : Whence)
    (h : offset_in_current_buffer f off wh = none)
    (hfl : ¬ (isioFlush idealIface f r).1 < 0) :
    (isioFileSeek idealIface f r off wh).2.2.calls =
      (isioFlush idealIface f r).2.2.calls + 2 := by
  rw [isioFileSeek_remote idealIface f r off wh h hfl]
  simp only []
  show (isioFileTell idealIface
    (idealIface.lseekObj (isioFlush idealIface f r).2.2 off wh).2.2).2.calls = _
  rw [isioFileTell_ideal]
  show (idealIface.lseekObj (isioFlush idealIface f r).2.2 off wh).2.2.calls + 1 = _
  rw [idealIface_lseek_calls]

/-- A small handle whose cache holds three unread bytes. -/
def cacheHitFile : ISIO_FILE :=
  { base_offset := 0, buf := [7, 8, 9, 0], bufferSize := 4,
    cursor := 0, count := 3, dirty := false, l1descInx := 3 }

/-- A small clean handle whose cache is empty. -/
def emptyCacheFile : ISIO_FILE :=
  { base_offset := 0, buf := [0, 0, 0, 0], bufferSize := 4,
    cursor := 0, count := 0, dirty := false, l1descInx := 3 }

/-- A small remote object holding four bytes. -/
def smallRemote : RemoteObj := { data := [1, 2, 3, 4], pos := 0, calls := 0, log := [] }

/-- C3: remote-call counts per operation, amended.  Against the ideal
collaborator: a clean cache-hit read and a fitting write and an
in-window seek perform 0 remote calls; a dirty cache-hit read performs
1 (the flush); an overflowing write performs 1 when the remainder is
re-cached and 2 when it is bypassed; but a read that refills the cache
performs 2 remote calls (position query + read), not 1, a clean seek
that misses the window performs 2 (lseek + position query), not 1, and
a dirty seek that misses the window performs 3. -/
theorem c3_remote_call_counts :
    (∀ (f : ISIO_FILE) (r : RemoteObj) (n : Nat),
        f.dirty = false → n ≠ 0 → 0 < f.count → (n : Int) ≤ f.count →
        (isioFileRead idealIface f r n).2.2.2.calls = r.calls) ∧
    (∀ (f : ISIO_FILE) (r : RemoteObj) (n : Nat),
        f.dirty = true → n ≠ 0 → 0 < f.count → (n : Int) ≤ f.count →
        (isioFileRead idealIface f r n).2.2.2.calls = r.calls + 1) ∧
    (∀ (f : ISIO_FILE) (r : RemoteObj) (n : Nat),
        f.dirty = false → n ≠ 0 → ¬ 0 < f.count → 0 < f.bufferSize →
        (isioFileRead idealIface f r n).2.2.2.calls = r.calls + 2) ∧
    (∀ (f : ISIO_FILE) (r : RemoteObj) (src : List Nat),
        src.length ≠ 0 → (src.length : Int) ≤ (f.bufferSize - f.cursor) % 2 ^ 64 →
        (isioFileWrite idealIface f r src).2.2.calls = r.calls) ∧
    (∀ (f : ISIO_FILE) (r : RemoteObj) (src : List Nat),
        src.length ≠ 0 → ¬ ((src.length : Int) ≤ (f.bufferSize - f.cursor) % 2 ^ 64) →
        f.bufferSize - f.cursor ≠ (src.length : Int) →
        ¬ ((ISIO_MAX_BUF_SIZE : Int) < (src.length : Int) - (f.bufferSize - f.cursor)) →
        (isioFileWrite idealIface f r src).2.2.calls = r.calls + 1) ∧
    (∀ (f : ISIO_FILE) (r : RemoteObj) (src : List Nat),
        src.length ≠ 0 → ¬ ((src.length : Int) ≤ (f.bufferSize - f.cursor) % 2 ^ 64) →
        f.bufferSize - f.cursor ≠ (src.length : Int) →
        (ISIO_MAX_BUF_SIZE : Int) < (src.length : Int) - (f.bufferSize - f.cursor) →
        (isioFileWrite idealIface f r src).2.2.calls = r.calls + 2) ∧
    (∀ (f : ISIO_FILE) (r : RemoteObj) (off adj : Int) (wh : Whence),
        offset_in_current_buffer f off wh = some adj →
        (isioFileSeek idealIface f r off wh).2.2.calls = r.calls) ∧
    (∀ (f : ISIO_FILE) (r : RemoteObj) (off : Int) (wh : Whence),
        offset_in_current_buffer f off wh = none → f.dirty = false →
        (isioFileSeek idealIface f r off wh).2.2.calls = r.calls + 2) ∧
    (∀ (f : ISIO_FILE) (r : RemoteObj) (off : Int) (wh : Whence),
        offset_in_current_buffer f off wh = none → f.dirty = true →
        (isioFileSeek idealIface f r off wh).2.2.calls = r.calls + 3) := by
  refine ⟨?_, ?_, ?_, ?_, ?_, ?_, ?_, ?_, ?_⟩
  · intro f r n hd hn hc hle
    rw [isioFileRead_body idealIface f r n hn (by rw [isioFlush_clean _ _ _ hd]; simp)]
    rw [isioFlush_clean _ _ _ hd]
    show (readBody idealIface f r n).2.2.2.calls = r.calls
    rw [readBody_hit _ _ _ _ hc hle]
  · intro f r n hd hn hc hle
    rw [isioFileRead_body idealIface f r n hn
      (by rw [isioFlush_ideal_eval _ _ hd]; simp)]
    rw [isioFlush_ideal_eval _ _ hd]
    rw [readBody_hit idealIface { f with dirty := false } _ n hc hle]
  · intro f r n hd hn hc hb
    rw [isioFileRead_body idealIface f r n hn (by rw [isioFlush_clean _ _ _ hd]; simp)]
    rw [isioFlush_clean _ _ _ hd]
    show (readBody idealIface f r n).2.2.2.calls = r.calls + 2
    rw [readBody_empty _ _ _ _ hc]
    exact readRefill_ideal_calls f r [] 0 (n : Int)
      (Int.natCast_pos.mpr (Nat.pos_of_ne_zero hn)) hb
  · intro f r src h0 h1
    rw [isioFileWrite_fits idealIface f r src h0 h1]
  · intro f r src h0 h1 h2 hM
    rw [isioFileWrite_overflow_calls f r src h0 h1 h2, if_neg hM]
  · intro f r src h0 h1 h2 hM
    rw [isioFileWrite_overflow_calls f r src h0 h1 h2, if_pos hM]
  · intro f r off adj wh h
    rw [isioFileSeek_local idealIface f r off wh adj h]
  · intro f r off wh h hd
    rw [isioFileSeek_remote_ideal_calls f r off wh h
      (by rw [isioFlush_clean _ _ _ hd]; simp)]
    rw [isioFlush_clean _ _ _ hd]
  · intro f r off wh h hd
    rw [isioFileSeek_remote_ideal_calls f r off wh h
      (by rw [isioFlush_ideal_eval _ _ hd]; simp)]
    rw [isioFlush_ideal_eval _ _ hd]

/-- The dirty variant of the cache-hit handle. -/
def cacheHitFileD : ISIO_FILE := { cacheHitFile with dirty := true }

/-- The dirty variant of the empty-cache handle. -/
def emptyCacheFileD : ISIO_FILE := { emptyCacheFile with dirty := true }

/-- C3 counterexample: a clean read that refills the cache performs two
blocking remote calls (the position query for `windowBase` bookkeeping
plus the remote read), not the single call the claim allows. -/
theorem c3_refill_read_two_calls :
    (isioFileRead idealIface emptyCacheFile smallRemote 1).2.2.2.calls = 2 ∧
    (2 : Nat) ≠ 1 := by
  exact ⟨rfl, by decide⟩

/-- Witness for the amended call counts: every case of
`c3_remote_call_counts` instantiated at a small concrete handle and
remote object. -/
theorem c3_remote_call_counts_witness :
    (isioFileRead idealIface cacheHitFile smallRemote 2).2.2.2.calls = 0 ∧
    (isioFileRead idealIface cacheHitFileD smallRemote 2).2.2.2.calls = 1 ∧
    (isioFileRead idealIface emptyCacheFile smallRemote 1).2.2.2.calls = 2 ∧
    (isioFileWrite idealIface emptyCacheFile smallRemote [5]).2.2.calls = 0 ∧
    (isioFileWrite idealIface emptyCacheFile smallRemote [1, 2, 3, 4, 5]).2.2.calls = 1 ∧
    (isioFileWrite idealIface emptyCacheFile smallRemote (zeros 2097157)).2.2.calls = 2 ∧
    (isioFileSeek idealIface cacheHitFile smallRemote 1 Whence.seekSet).2.2.calls = 0 ∧
    (isioFileSeek idealIface emptyCacheFile smallRemote 9 Whence.seekSet).2.2.calls = 2 ∧
    (isioFileSeek idealIface emptyCacheFileD smallRemote 9 Whence.seekSet).2.2.calls = 3 := by
  refine ⟨?_, ?_, ?_, ?_, ?_, ?_, ?_, ?_, ?_⟩
  · exact c3_remote_call_counts.1 cacheHitFile smallRemote 2 rfl
      (by decide) (by decide) (by decide)
  · exact c3_remote_call_counts.2.1 cacheHitFileD smallRemote 2 rfl
      (by decide) (by decide) (by decide)
  · exact c3_remote_call_counts.2.2.1 emptyCacheFile smallRemote 1 rfl
      (by decide) (by decide) (by decide)
  · exact c3_remote_call_counts.2.2.2.1 emptyCacheFile smallRemote [5]
      (by decide) (by decide)
  · exact c3_remote_call_counts.2.2.2.2.1 emptyCacheFile smallRemote [1, 2, 3, 4, 5]
      (by decide) (by decide) (by decide) (by decide)
  · exact c3_remote_call_counts.2.2.2.2.2.1 emptyCacheFile smallRemote (zeros 2097157)
      (by rw [zeros_length]; decide) (by rw [zeros_length]; decide)
      (by rw [zeros_length]; decide) (by rw [zeros_length]; decide)
  · exact c3_remote_call_counts.2.2.2.2.2.2.1 cacheHitFile smallRemote 1 1
      Whence.seekSet (by decide)
  · exact c3_remote_call_counts.2.2.2.2.2.2.2.1 emptyCacheFile smallRemote 9
      Whence.seekSet (by decide) rfl
  · exact c3_remote_call_counts.2.2.2.2.2.2.2.2 emptyCacheFileD smallRemote 9
      Whence.seekSet (by decide) rfl
